import Mathlib

/-!
Verification development for the Stage 3 decorator lowering pass
(`src/decorator-transformer`).  The AST types below are a shallow embedding
of the oxc AST fragments the pass inspects and produces; the functions are
translated from `src/transformer.rs` and `src/lib.rs`, keeping the source
names.  External collaborators (the oxc parser and code generator) are
modelled by a direct printer over the embedded AST.
-/

set_option maxRecDepth 20000

namespace DecoratorPass

/-- Decorator kinds with the stable integer encoding of
`transformer.rs::DecoratorKind` (`Field=0, Accessor=1, Method=2, Getter=3,
Setter=4, Class=5`). -/
inductive DecoratorKind where
  | field
  | accessor
  | method
  | getter
  | setter
  | classKind
  deriving DecidableEq

/-- The `as u8` value of a `DecoratorKind`. -/
def DecoratorKind.code : DecoratorKind → Nat
  | .field => 0
  | .accessor => 1
  | .method => 2
  | .getter => 3
  | .setter => 4
  | .classKind => 5

/-- oxc `MethodDefinitionKind`: `ctor` stands for `Constructor`, `plain`
for `Method`. -/
inductive MethodKind where
  | ctor
  | plain
  | get
  | set
  deriving DecidableEq

/-- oxc `PropertyKey`, restricted to the shapes `get_property_key_name`
distinguishes.  A `privateIdentifier` carries its name without the leading
`#` (as oxc does).  All remaining key forms (computed keys among them) are
collapsed into `computed`; the pass records nothing about their contents. -/
inductive PropertyKey where
  | staticIdentifier (name : String)
  | privateIdentifier (name : String)
  | stringLiteral (value : String)
  | numericLiteral (text : String)
  | computed
  deriving DecidableEq

mutual
/-- Expression fragment of the oxc AST.  Only the shapes the pass builds or
pattern-matches on are distinguished; any other expression is an opaque
`otherExpr` carrying its printed source text.  `arrayAssign` is the
assignment `[a, b] = rhs` with an array-pattern target, the shape produced
by `build_apply_decs_assignment`. -/
inductive Expr where
  | identifierRef (name : String)
  | thisExpr
  | superExpr
  | numberLit (n : Nat)
  | stringLit (s : String)
  | boolLit (b : Bool)
  | call (callee : Expr) (args : List Expr)
  | memberAccess (obj : Expr) (prop : String)
  | arrayLit (elements : List Expr)
  | arrayAssign (targets : List String) (rhs : Expr)
  | classExpr (c : ClassNode)
  | functionExpr (body : List Stmt)
  | otherExpr (printed : String)

/-- Statement fragment of the oxc AST.  The three class-statement forms are
the ones `statement_has_decorators` distinguishes; other statements that can
contain classes are `functionDecl`, `exprStmt` and `ifStmt`; everything else
is an opaque `otherStmt` with its printed text. -/
inductive Stmt where
  | classDecl (c : ClassNode)
  | exportNamedClass (c : ClassNode)
  | exportDefaultClass (c : ClassNode)
  | functionDecl (name : String) (body : List Stmt)
  | exprStmt (e : Expr)
  | ifStmt (test : Expr) (consequent : Stmt)
  | emptyStmt
  | otherStmt (printed : String)

/-- oxc `ClassElement`.  `methodDefinition`'s body is optional because a
TypeScript constructor overload signature is a `MethodDefinition` whose
function has no body.  `otherElement` covers element kinds that carry no
decorators (e.g. `TSIndexSignature`). -/
inductive ClassElement where
  | methodDefinition (decorators : List Expr) (kind : MethodKind)
      (isStatic : Bool) (key : PropertyKey) (body : Option (List Stmt))
  | propertyDefinition (decorators : List Expr) (isStatic : Bool)
      (key : PropertyKey) (value : Option Expr)
  | accessorProperty (decorators : List Expr) (isStatic : Bool)
      (key : PropertyKey) (value : Option Expr)
  | staticBlock (body : List Stmt)
  | otherElement

/-- oxc `Class`: optional binding identifier, optional superclass
expression, class decorators, and the body elements. -/
inductive ClassNode where
  | mk (ident : Option String) (superClass : Option Expr)
      (decorators : List Expr) (body : List ClassElement)
end

/-- Binding identifier of a class (`class.id`). -/
def ClassNode.ident : ClassNode → Option String
  | .mk i _ _ _ => i

/-- Superclass expression of a class (`class.super_class`). -/
def ClassNode.superClass : ClassNode → Option Expr
  | .mk _ s _ _ => s

/-- Class-level decorator list (`class.decorators`). -/
def ClassNode.decorators : ClassNode → List Expr
  | .mk _ _ d _ => d

/-- Body elements of a class (`class.body.body`). -/
def ClassNode.body : ClassNode → List ClassElement
  | .mk _ _ _ b => b

/-- Comma-separated join, used by the printer. -/
def commaJoin : List String → String
  | [] => ""
  | [s] => s
  | s :: rest => s ++ ", " ++ commaJoin rest

/-- Prefix printed before a method name (`get ` / `set `). -/
def methodHead : MethodKind → String
  | .get => ("get ")
  | .set => ("set ")
  | _ => ""

/-- Printed form of a property key. -/
def printKey : PropertyKey → String
  | .staticIdentifier n => n
  | .privateIdentifier n => String.mk ('#' :: n.data)
  | .stringLiteral s => "\"" ++ s ++ "\""
  | .numericLiteral t => t
  | .computed => "[computed]"

mutual
/-- Printer over the embedded AST, modelling the external oxc `Codegen`
collaborator (spec §1 places printing outside the pass).  Decorators are
printed as `@expr ` before the decorated node, as oxc's code generator
does. -/
def printExpr : Expr → String
  | .identifierRef n => n
  | .thisExpr => "this"
  | .superExpr => "super"
  | .numberLit n => toString n
  | .stringLit s => "\"" ++ s ++ "\""
  | .boolLit b => if b then ("true") else ("false")
  | .call c args => printExpr c ++ "(" ++ printExprs args ++ ")"
  | .memberAccess o p => printExpr o ++ "." ++ p
  | .arrayLit es => "[" ++ printExprs es ++ "]"
  | .arrayAssign ts rhs => "[" ++ commaJoin ts ++ "] = " ++ printExpr rhs
  | .classExpr c => printClassNode c
  | .functionExpr b => "function () \x7b " ++ printStmts b ++ " \x7d"
  | .otherExpr s => s

/-- Comma-joined printed expressions. -/
def printExprs : List Expr → String
  | [] => ""
  | [e] => printExpr e
  | e :: rest => printExpr e ++ ", " ++ printExprs rest

/-- Printed statement. -/
def printStmt : Stmt → String
  | .classDecl c => printClassNode c
  | .exportNamedClass c => "export " ++ printClassNode c
  | .exportDefaultClass c => "export default " ++ printClassNode c
  | .functionDecl n b => "function " ++ n ++ "() \x7b " ++ printStmts b ++ " \x7d"
  | .exprStmt e => printExpr e ++ ";"
  | .ifStmt t s => "if (" ++ printExpr t ++ ") " ++ printStmt s
  | .emptyStmt => ";"
  | .otherStmt s => s

/-- Space-joined printed statements. -/
def printStmts : List Stmt → String
  | [] => ""
  | [s] => printStmt s
  | s :: rest => printStmt s ++ " " ++ printStmts rest

/-- Printed decorator list, each decorator as `@expr `. -/
def printDecoratorList : List Expr → String
  | [] => ""
  | d :: rest => "@" ++ printExpr d ++ " " ++ printDecoratorList rest

/-- Printed class element. -/
def printElement : ClassElement → String
  | .methodDefinition decs k st key b =>
      printDecoratorList decs ++ (if st then ("static ") else (""))
        ++ methodHead k ++ printKey key ++ "()"
        ++ (match b with
            | some ss => " \x7b " ++ printStmts ss ++ " \x7d"
            | none => ";")
  | .propertyDefinition decs st key v =>
      printDecoratorList decs ++ (if st then ("static ") else (""))
        ++ printKey key
        ++ (match v with
            | some e => " = " ++ printExpr e
            | none => "") ++ ";"
  | .accessorProperty decs st key v =>
      printDecoratorList decs ++ (if st then ("static ") else (""))
        ++ "accessor " ++ printKey key
        ++ (match v with
            | some e => " = " ++ printExpr e
            | none => "") ++ ";"
  | .staticBlock ss => "static \x7b " ++ printStmts ss ++ " \x7d"
  | .otherElement => ";"

/-- Space-joined printed class elements. -/
def printElements : List ClassElement → String
  | [] => ""
  | [e] => printElement e
  | e :: rest => printElement e ++ " " ++ printElements rest

/-- Printed class. -/
def printClassNode : ClassNode → String
  | .mk i sc decs body =>
      printDecoratorList decs ++ "class"
        ++ (match i with
            | some n => " " ++ n
            | none => "")
        ++ (match sc with
            | some e => " extends " ++ printExpr e
            | none => "")
        ++ " \x7b " ++ printElements body ++ " \x7d"
end

/-- Printed program: newline-joined top-level statements (the emitted
`code` of the code generator). -/
def printProgram : List Stmt → String
  | [] => ""
  | [s] => printStmt s
  | s :: rest => printStmt s ++ "\n" ++ printProgram rest

/-! ## Descriptor collection (`transformer.rs`) -/

/-- Metadata for one decorated member (`transformer.rs::DecoratorMetadata`). -/
structure DecoratorMetadata where
  decorator_names : List String
  kind : DecoratorKind
  is_static : Bool
  is_private : Bool
  key : String
  deriving DecidableEq

/-- `get_property_key_name` (transformer.rs:200-208): identifier text,
`#name` for a private identifier, string value, the decimal rendering of a
numeric literal, and `"computed"` for every other key form. -/
def get_property_key_name : PropertyKey → String
  | .staticIdentifier id => id
  | .privateIdentifier id => String.mk ('#' :: id.data)
  | .stringLiteral lit => lit
  | .numericLiteral lit => lit
  | .computed => "computed"

/-- `generate_expression_code` (transformer.rs:180-192): print the
expression; fall back to `"decorator"` on an empty print. -/
def generate_expression_code (e : Expr) : String :=
  let code := printExpr e
  if code = "" then ("decorator") else code

/-- `extract_decorator_names` (transformer.rs:194-198). -/
def extract_decorator_names (decorators : List Expr) : List String :=
  decorators.map (fun dec => generate_expression_code dec)

/-- Whether a property key is a `PrivateIdentifier`
(the `matches!(key, PropertyKey::PrivateIdentifier(_))` checks). -/
def isPrivateKey : PropertyKey → Bool
  | .privateIdentifier _ => true
  | _ => false

/-- The kind match of the method arm of `collect_decorator_metadata`
(transformer.rs:141-145): `Get` to getter, `Set` to setter, and everything
else — `Constructor` included — to method. -/
def methodKindToDecoratorKind : MethodKind → DecoratorKind
  | .get => .getter
  | .set => .setter
  | _ => .method

/-- One arm of `collect_decorator_metadata` (transformer.rs:137-175): the
metadata contributed by a single class element. -/
def collectElement : ClassElement → Option DecoratorMetadata
  | .methodDefinition decs k st key _ =>
      if decs.isEmpty then none
      else some
        { decorator_names := extract_decorator_names decs
          kind := methodKindToDecoratorKind k
          is_static := st
          is_private := isPrivateKey key
          key := get_property_key_name key }
  | .propertyDefinition decs st key _ =>
      if decs.isEmpty then none
      else some
        { decorator_names := extract_decorator_names decs
          kind := .field
          is_static := st
          is_private := isPrivateKey key
          key := get_property_key_name key }
  | .accessorProperty decs st key _ =>
      if decs.isEmpty then none
      else some
        { decorator_names := extract_decorator_names decs
          kind := .accessor
          is_static := st
          is_private := isPrivateKey key
          key := get_property_key_name key }
  | _ => none

/-- `collect_decorator_metadata` (transformer.rs:137-175), taking the
class's body elements. -/
def collect_decorator_metadata (body : List ClassElement) : List DecoratorMetadata :=
  body.filterMap collectElement

/-- `collect_class_decorators` (transformer.rs:466-470). -/
def collect_class_decorators (c : ClassNode) : List String :=
  c.decorators.map (fun dec => generate_expression_code dec)

/-- Per-element decorator check inside `has_decorators`
(transformer.rs:126-135). -/
def elementHasDecorators : ClassElement → Bool
  | .methodDefinition decs _ _ _ _ => !decs.isEmpty
  | .propertyDefinition decs _ _ _ => !decs.isEmpty
  | .accessorProperty decs _ _ _ => !decs.isEmpty
  | _ => false

/-- `has_decorators` (transformer.rs:126-135). -/
def has_decorators (c : ClassNode) : Bool :=
  !c.decorators.isEmpty || c.body.any elementHasDecorators

/-- `statement_has_decorators` (transformer.rs:109-120): only bare,
`export`ed and `export default` class declarations are recognised. -/
def statement_has_decorators : Stmt → Bool
  | .classDecl c => has_decorators c
  | .exportDefaultClass c => has_decorators c
  | .exportNamedClass c => has_decorators c
  | _ => false

/-- `check_for_decorators` (transformer.rs:105-107): scans only the
top-level statements of the program. -/
def check_for_decorators (p : List Stmt) : Bool :=
  p.any statement_has_decorators

/-! ## Static-block construction (`transformer.rs`) -/

/-- The descriptor tuples one metadata entry contributes to
`build_member_descriptor_array` (transformer.rs:314-353): one
`[decorator, flags, key, isPrivate]` array per decorator, with
`flags = kind | (static ? 8 : 0)` (`Nat.lor` models the `u8` bitwise or)
and the leading character of the key stripped when the member is private
(`&meta.key[1..]` on the one-byte `#`). -/
def descriptorsForMeta (m : DecoratorMetadata) : List Expr :=
  m.decorator_names.map (fun dn =>
    Expr.arrayLit
      [ Expr.identifierRef dn,
        Expr.numberLit (Nat.lor m.kind.code (if m.is_static then 8 else 0)),
        Expr.stringLit (if m.is_private then String.mk m.key.data.tail else m.key),
        Expr.boolLit m.is_private ])

/-- `build_member_descriptor_array` (transformer.rs:314-353). -/
def build_member_descriptor_array (metadata : List DecoratorMetadata) : Expr :=
  Expr.arrayLit (metadata.foldr (fun m acc => descriptorsForMeta m ++ acc) [])

/-- `build_apply_decs_assignment` (transformer.rs:374-420), producing
`[targets] = _applyDecs(this, memberDesc, classDesc).prop;`.  The source
builds the array-pattern left-hand side by parsing the constant string
`"([_initProto, _initClass] = temp)"`; that parse always succeeds, and it
is modelled here by its (unique) resulting assignment statement. -/
def build_apply_decs_assignment (target_names : List String)
    (member_desc_array : Expr) (class_dec_array : Expr)
    (property_name : String) : Stmt :=
  Stmt.exprStmt
    (Expr.arrayAssign target_names
      (Expr.memberAccess
        (Expr.call (Expr.identifierRef ("_applyDecs"))
          [Expr.thisExpr, member_desc_array, class_dec_array])
        property_name))

/-- `build_init_class_if_statement` (transformer.rs:454-464):
`if (_initClass) _initClass();`. -/
def build_init_class_if_statement : Stmt :=
  Stmt.ifStmt (Expr.identifierRef ("_initClass"))
    (Stmt.exprStmt (Expr.call (Expr.identifierRef ("_initClass")) []))

/-- `create_decorator_static_block` (transformer.rs:278-311).  The class
decorator list is received but deliberately ignored: the static block
always passes the empty array as the third `_applyDecs` argument. -/
def create_decorator_static_block (metadata : List DecoratorMetadata)
    (_class_decorators : List String) : ClassElement :=
  ClassElement.staticBlock
    [ build_apply_decs_assignment ["_initProto", "_initClass"]
        (build_member_descriptor_array metadata) (Expr.arrayLit []) ("e"),
      build_init_class_if_statement ]

/-! ## Constructor instrumentation (`transformer.rs`) -/

/-- `build_init_proto_if_statement` (transformer.rs:640-652):
`if (_initProto) _initProto(this);`. -/
def build_init_proto_if_statement : Stmt :=
  Stmt.ifStmt (Expr.identifierRef ("_initProto"))
    (Stmt.exprStmt (Expr.call (Expr.identifierRef ("_initProto")) [Expr.thisExpr]))

/-- Whether a statement is an expression statement whose expression is a
call with a `Super` callee (the pattern tested at transformer.rs:626-631). -/
def isSuperCallStmt : Stmt → Bool
  | .exprStmt (.call .superExpr _) => true
  | _ => false

/-- `find_super_call_insert_position` (transformer.rs:624-637): index just
after the first `super(...)` expression statement, `0` when none exists. -/
def find_super_call_insert_position : List Stmt → Nat
  | [] => 0
  | s :: rest =>
      if isSuperCallStmt s then 1
      else match find_super_call_insert_position rest with
        | 0 => 0
        | n + 1 => n + 2

/-- Whether an element is a constructor method definition (the predicate of
transformer.rs:598-601). -/
def isConstructorElement : ClassElement → Bool
  | .methodDefinition _ .ctor _ _ _ => true
  | _ => false

/-- Index of the first constructor element (`position` at
transformer.rs:598-601). -/
def findCtorIdx : List ClassElement → Option Nat
  | [] => none
  | e :: t =>
      if isConstructorElement e then some 0
      else (findCtorIdx t).map (· + 1)

/-- `Vec::insert(i, a)`. -/
def insertAt (l : List α) (i : Nat) (a : α) : List α :=
  l.take i ++ a :: l.drop i

/-- In-place update of the element at an index, modelling the
`&mut class.body.body[index]` mutation. -/
def modifyAt (l : List α) (i : Nat) (f : α → α) : List α :=
  match l, i with
  | [], _ => []
  | a :: t, 0 => f a :: t
  | a :: t, n + 1 => a :: modifyAt t n f

/-- The mutation applied to an existing constructor element
(transformer.rs:603-614): when the method has a body, insert
`if (_initProto) _initProto(this);` at `find_super_call_insert_position`;
a bodiless method (a TS overload signature) is left untouched. -/
def addGuardToCtor : ClassElement → ClassElement
  | .methodDefinition decs k st key (some stmts) =>
      .methodDefinition decs k st key
        (some (insertAt stmts (find_super_call_insert_position stmts)
          build_init_proto_if_statement))
  | e => e

/-- `create_constructor_with_init` (transformer.rs:654-723): a synthesized
constructor whose body is `super();` (iff the class has a superclass)
followed by the `_initProto` guard. -/
def create_constructor_with_init (hasSuper : Bool) : ClassElement :=
  ClassElement.methodDefinition [] .ctor false
    (.staticIdentifier ("constructor"))
    (some ((if hasSuper then [Stmt.exprStmt (Expr.call Expr.superExpr [])] else [])
      ++ [build_init_proto_if_statement]))

/-- `ensure_constructor_with_init` (transformer.rs:596-620), acting on the
class body: modify the first constructor when one exists, otherwise insert
a synthesized constructor at position 0. -/
def ensure_constructor_with_init (hasSuper : Bool)
    (body : List ClassElement) : List ClassElement :=
  match findCtorIdx body with
  | some i => modifyAt body i addGuardToCtor
  | none => insertAt body 0 (create_constructor_with_init hasSuper)

/-! ## The per-class rewrite (`transformer.rs`) -/

/-- `decorators.clear()` on a class element (transformer.rs:263-270). -/
def clearElementDecorators : ClassElement → ClassElement
  | .methodDefinition _ k st key b => .methodDefinition [] k st key b
  | .propertyDefinition _ st key v => .propertyDefinition [] st key v
  | .accessorProperty _ st key v => .accessorProperty [] st key v
  | e => e

/-- The `needs_instance_init` computation (transformer.rs:237-242): some
non-static member whose kind is field, accessor, method, getter or
setter. -/
def needsInstanceInitOf (metadata : List DecoratorMetadata) : Bool :=
  metadata.any (fun m =>
    !m.is_static &&
      (match m.kind with
        | .field | .accessor | .method | .getter | .setter => true
        | .classKind => false))

/-- The class-decorator record pushed onto `classes_with_class_decorators`
(transformer.rs:226-233).  No code in the repository consumes this list —
`get_classes_with_class_decorators` has no caller — so the information is
collected and then dropped. -/
def class_decorator_info (c : ClassNode) : Option (String × List String) :=
  let class_decorators := collect_class_decorators c
  if class_decorators.isEmpty then none
  else some (c.ident.getD ("default"), class_decorators)

/-- `transform_class_with_decorators` (transformer.rs:210-273): append the
static block, instrument the constructor when instance initialization is
needed, then clear the class and member decorator lists.  A class without
decorators is returned unchanged. -/
def transform_class_with_decorators (c : ClassNode) : ClassNode :=
  if !has_decorators c then c
  else
    let metadata := collect_decorator_metadata c.body
    let class_decorators := collect_class_decorators c
    let needs_instance_init := needsInstanceInitOf metadata
    let body1 :=
      if !metadata.isEmpty || !class_decorators.isEmpty then
        let withBlock := c.body ++ [create_decorator_static_block metadata class_decorators]
        if needs_instance_init then
          ensure_constructor_with_init c.superClass.isSome withBlock
        else withBlock
      else c.body
    ClassNode.mk c.ident c.superClass [] (body1.map clearElementDecorators)

/-! ## Traversal (`oxc_traverse` driving `enter_class`)

The traversal visits every class node (declarations and expressions,
however deeply nested) and runs `transform_class_with_decorators` on it.
In the source, `enter_class` rewrites the class before its children are
visited; the model below recurses into the children first and applies the
rewrite afterwards.  The two orders agree: the rewrite inspects only the
decorator lists (never visited by the source traversal — they are cleared
before the children are walked, or already empty), the element tags, keys
and static flags (preserved by the recursion), and the
`super(...)`-statement shape (also preserved); and the nodes the rewrite
inserts contain no classes, so visiting them is a no-op. -/

mutual
/-- Traversal over expressions. -/
def traverseExpr : Expr → Expr
  | .call c args => .call (traverseExpr c) (traverseExprs args)
  | .memberAccess o p => .memberAccess (traverseExpr o) p
  | .arrayLit es => .arrayLit (traverseExprs es)
  | .arrayAssign ts r => .arrayAssign ts (traverseExpr r)
  | .classExpr c => .classExpr (traverseClassNode c)
  | .functionExpr b => .functionExpr (traverseStmts b)
  | e => e

/-- Traversal over expression lists. -/
def traverseExprs : List Expr → List Expr
  | [] => []
  | e :: t => traverseExpr e :: traverseExprs t

/-- Traversal over an optional expression. -/
def traverseOptExpr : Option Expr → Option Expr
  | none => none
  | some e => some (traverseExpr e)

/-- Traversal over statements. -/
def traverseStmt : Stmt → Stmt
  | .classDecl c => .classDecl (traverseClassNode c)
  | .exportNamedClass c => .exportNamedClass (traverseClassNode c)
  | .exportDefaultClass c => .exportDefaultClass (traverseClassNode c)
  | .functionDecl n b => .functionDecl n (traverseStmts b)
  | .exprStmt e => .exprStmt (traverseExpr e)
  | .ifStmt t s => .ifStmt (traverseExpr t) (traverseStmt s)
  | s => s

/-- Traversal over statement lists. -/
def traverseStmts : List Stmt → List Stmt
  | [] => []
  | s :: t => traverseStmt s :: traverseStmts t

/-- Traversal over an optional statement list (a function body). -/
def traverseOptStmts : Option (List Stmt) → Option (List Stmt)
  | none => none
  | some l => some (traverseStmts l)

/-- Traversal over a class element.  Decorator lists are left untouched:
the source traversal never walks them (see the comment above). -/
def traverseElement : ClassElement → ClassElement
  | .methodDefinition decs k st key b => .methodDefinition decs k st key (traverseOptStmts b)
  | .propertyDefinition decs st key v => .propertyDefinition decs st key (traverseOptExpr v)
  | .accessorProperty decs st key v => .accessorProperty decs st key (traverseOptExpr v)
  | .staticBlock b => .staticBlock (traverseStmts b)
  | .otherElement => .otherElement

/-- Traversal over class-element lists. -/
def traverseElements : List ClassElement → List ClassElement
  | [] => []
  | e :: t => traverseElement e :: traverseElements t

/-- Traversal over a class node: recurse into superclass and members, then
apply the per-class rewrite (`enter_class`, transformer.rs:748-750). -/
def traverseClassNode : ClassNode → ClassNode
  | .mk i sc decs body =>
      transform_class_with_decorators
        (ClassNode.mk i (traverseOptExpr sc) decs (traverseElements body))
end

/-! ## Rewrite counting

`helpers_injected` (transformer.rs:76,220) becomes true exactly when some
visited class has decorators.  The counters below count, over the original
program, the classes the traversal visits and rewrites; classes occurring
inside the decorator lists of a decorated class are not counted, mirroring
the traversal (those lists are cleared before children are visited), but
any such class sits under a decorated class that is itself counted. -/

mutual
/-- Number of rewritten classes inside an expression. -/
def rewrittenExpr : Expr → Nat
  | .call c args => rewrittenExpr c + rewrittenExprs args
  | .memberAccess o _ => rewrittenExpr o
  | .arrayLit es => rewrittenExprs es
  | .arrayAssign _ r => rewrittenExpr r
  | .classExpr c => rewrittenClassNode c
  | .functionExpr b => rewrittenStmts b
  | _ => 0

/-- Number of rewritten classes inside an expression list. -/
def rewrittenExprs : List Expr → Nat
  | [] => 0
  | e :: t => rewrittenExpr e + rewrittenExprs t

/-- Number of rewritten classes inside an optional expression. -/
def rewrittenOptExpr : Option Expr → Nat
  | none => 0
  | some e => rewrittenExpr e

/-- Number of rewritten classes inside a statement. -/
def rewrittenStmt : Stmt → Nat
  | .classDecl c => rewrittenClassNode c
  | .exportNamedClass c => rewrittenClassNode c
  | .exportDefaultClass c => rewrittenClassNode c
  | .functionDecl _ b => rewrittenStmts b
  | .exprStmt e => rewrittenExpr e
  | .ifStmt t s => rewrittenExpr t + rewrittenStmt s
  | _ => 0

/-- Number of rewritten classes inside a statement list. -/
def rewrittenStmts : List Stmt → Nat
  | [] => 0
  | s :: t => rewrittenStmt s + rewrittenStmts t

/-- Number of rewritten classes inside an optional statement list. -/
def rewrittenOptStmts : Option (List Stmt) → Nat
  | none => 0
  | some l => rewrittenStmts l

/-- Number of rewritten classes inside a class element. -/
def rewrittenElement : ClassElement → Nat
  | .methodDefinition _ _ _ _ b => rewrittenOptStmts b
  | .propertyDefinition _ _ _ v => rewrittenOptExpr v
  | .accessorProperty _ _ _ v => rewrittenOptExpr v
  | .staticBlock b => rewrittenStmts b
  | .otherElement => 0

/-- Number of rewritten classes inside a class-element list. -/
def rewrittenElements : List ClassElement → Nat
  | [] => 0
  | e :: t => rewrittenElement e + rewrittenElements t

/-- Number of rewritten classes in a class node: the node itself (iff it
has decorators) plus its superclass expression and members. -/
def rewrittenClassNode : ClassNode → Nat
  | .mk i sc decs body =>
      (if has_decorators (ClassNode.mk i sc decs body) then 1 else 0)
        + rewrittenOptExpr sc + rewrittenElements body
end

/-! ## Decorator-freeness

Spec §3 invariant 1: after the pass, no `@…` syntax remains anywhere in
the AST.  The predicate below checks that every class node reachable in
the AST has an empty class-decorator list and empty member-decorator
lists. -/

mutual
/-- Decorator-freeness of an expression. -/
def decoratorFreeExpr : Expr → Bool
  | .call c args => decoratorFreeExpr c && decoratorFreeExprs args
  | .memberAccess o _ => decoratorFreeExpr o
  | .arrayLit es => decoratorFreeExprs es
  | .arrayAssign _ r => decoratorFreeExpr r
  | .classExpr c => decoratorFreeClassNode c
  | .functionExpr b => decoratorFreeStmts b
  | _ => true

/-- Decorator-freeness of an expression list. -/
def decoratorFreeExprs : List Expr → Bool
  | [] => true
  | e :: t => decoratorFreeExpr e && decoratorFreeExprs t

/-- Decorator-freeness of an optional expression. -/
def decoratorFreeOptExpr : Option Expr → Bool
  | none => true
  | some e => decoratorFreeExpr e

/-- Decorator-freeness of a statement. -/
def decoratorFreeStmt : Stmt → Bool
  | .classDecl c => decoratorFreeClassNode c
  | .exportNamedClass c => decoratorFreeClassNode c
  | .exportDefaultClass c => decoratorFreeClassNode c
  | .functionDecl _ b => decoratorFreeStmts b
  | .exprStmt e => decoratorFreeExpr e
  | .ifStmt t s => decoratorFreeExpr t && decoratorFreeStmt s
  | _ => true

/-- Decorator-freeness of a statement list. -/
def decoratorFreeStmts : List Stmt → Bool
  | [] => true
  | s :: t => decoratorFreeStmt s && decoratorFreeStmts t

/-- Decorator-freeness of an optional statement list. -/
def decoratorFreeOptStmts : Option (List Stmt) → Bool
  | none => true
  | some l => decoratorFreeStmts l

/-- Decorator-freeness of a class element: its decorator list is empty and
its nested code is decorator-free. -/
def decoratorFreeElement : ClassElement → Bool
  | .methodDefinition decs _ _ _ b => decs.isEmpty && decoratorFreeOptStmts b
  | .propertyDefinition decs _ _ v => decs.isEmpty && decoratorFreeOptExpr v
  | .accessorProperty decs _ _ v => decs.isEmpty && decoratorFreeOptExpr v
  | .staticBlock b => decoratorFreeStmts b
  | .otherElement => true

/-- Decorator-freeness of a class-element list. -/
def decoratorFreeElements : List ClassElement → Bool
  | [] => true
  | e :: t => decoratorFreeElement e && decoratorFreeElements t

/-- Decorator-freeness of a class node. -/
def decoratorFreeClassNode : ClassNode → Bool
  | .mk _ sc decs body =>
      decs.isEmpty && decoratorFreeOptExpr sc && decoratorFreeElements body
end

/-! ## String utilities used by the post-codegen injection (`lib.rs`)

The source manipulates the generated code with byte-index `find`/slicing;
the model works with character lists (every character the printer and the
injected texts produce is one byte wide). -/

/-- Whether `pat` is an initial segment of `s`. -/
def leadsWith : List Char → List Char → Bool
  | [], _ => true
  | _ :: _, [] => false
  | a :: as, b :: bs => a == b && leadsWith as bs

/-- Index (from `i`) of the first occurrence of `pat` in `s`. -/
def findSubAux (pat : List Char) : List Char → Nat → Option Nat
  | [], i => if pat.isEmpty then some i else none
  | s@(_ :: t), i => if leadsWith pat s then some i else findSubAux pat t (i + 1)

/-- `str::find(pattern)` on the model's strings. -/
def findSub (code pat : String) : Option Nat :=
  findSubAux pat.data code.data 0

/-- Number of occurrences of `pat` in `s` (counting start positions). -/
def countOccAux (pat : List Char) : List Char → Nat
  | [] => if pat.isEmpty then 1 else 0
  | s@(_ :: t) => (if leadsWith pat s then 1 else 0) + countOccAux pat t

/-- Number of occurrences of `pat` in `s`. -/
def countOcc (pat s : String) : Nat :=
  countOccAux pat.data s.data

/-- Index of the last occurrence of a character (`str::rfind(char)`). -/
def lastIdxOf (c : Char) (s : List Char) : Option Nat :=
  match s with
  | [] => none
  | a :: t =>
      match lastIdxOf c t with
      | some j => some (j + 1)
      | none => if a == c then some 0 else none

/-- Character count of a string. -/
def strLen (s : String) : Nat := s.data.length

/-- The first `i` characters of a string (`&code[..i]`). -/
def strTake (s : String) (i : Nat) : String := String.mk (s.data.take i)

/-- The string from character `i` on (`&code[i..]`). -/
def strDrop (s : String) (i : Nat) : String := String.mk (s.data.drop i)

/-- Insertion of `ins` at position `i` (the `format!("{}{}{}", before, ins,
after)` splices of lib.rs). -/
def insertStr (s : String) (i : Nat) (ins : String) : String :=
  String.mk (s.data.take i ++ ins.data ++ s.data.drop i)

/-- Whitespace test for `str::trim_start` (the characters the printer can
emit). -/
def isWs (c : Char) : Bool :=
  c == ' ' || c == '\n' || c == '\t' || c == '\r'

/-- `find_statement_start` (lib.rs:117-139): back up to the start of the
line holding the `class` keyword and, when that line starts with `export`,
return the position of `export`; otherwise return the `class` position. -/
def find_statement_start (before_class : String) (class_pos : Nat) : Nat :=
  let line_start :=
    match lastIdxOf '\n' before_class.data with
    | some p => p + 1
    | none => 0
  let line_content := strDrop before_class line_start
  let trimmed := String.mk (line_content.data.dropWhile isWs)
  if leadsWith ("export").data trimmed.data then
    let export_offset := (findSub line_content ("export")).getD 0
    line_start + export_offset
  else class_pos

/-- Modelled from the spec: the per-class transformation record (spec §3,
"class transformation record") that `inject_static_blocks` (lib.rs:141)
consumes as `transformer.transformations`.  Its defining module is missing
from the sources: lib.rs:65 reads a `transformations` field that
`DecoratorTransformer` (transformer.rs:73-79) does not declare. -/
structure ClassTransformation where
  class_name : String
  static_block_code : String
  needs_instance_init : Bool

/-- `inject_constructor_init` (lib.rs:194-245): string-level injection of
the `_initProto` guard into the constructor found after
`class_body_start`, after the first `super(`...`)` call (and its `;`) when
one occurs, at the start of the constructor body otherwise, and creating a
constructor when none is found. -/
def inject_constructor_init (code : String) (class_body_start : Nat) : String :=
  let class_body := strDrop code class_body_start
  match findSub class_body ("constructor(") with
  | some ctor_pos =>
      let ctor_start := class_body_start + ctor_pos
      match findSub (strDrop code ctor_start) ("\x7b") with
      | none => code
      | some brace_pos =>
          let ctor_body_start := ctor_start + brace_pos + 1
          let ctor_body := strDrop code ctor_body_start
          match findSub ctor_body ("super(") with
          | some super_pos =>
              let super_start := ctor_body_start + super_pos
              let search_from := super_start + strLen ("super(")
              match findSub (strDrop code search_from) (")") with
              | none => code
              | some paren_pos =>
                  let call_end := search_from + paren_pos + 1
                  let remaining := strDrop code call_end
                  let injection_point :=
                    match findSub remaining (";") with
                    | some semi_pos => call_end + semi_pos + 1
                    | none => call_end
                  insertStr code injection_point
                    ("\n    if (_initProto) _initProto(this);")
          | none =>
              insertStr code ctor_body_start
                ("\n    if (_initProto) _initProto(this);")
  | none =>
      insertStr code class_body_start
        ("\n  constructor() \x7b\n    if (_initProto) _initProto(this);\n  \x7d")

/-- One iteration of the `inject_static_blocks` loop (lib.rs:141-191):
locate `class <name>` (or `class \x7b` for `AnonymousClass`), insert
`let _initProto, _initClass;` at the statement start, insert the recorded
static-block text after the class body's opening brace, and run the
constructor injection when the record asks for instance initialization. -/
def injectStaticBlockOne (code : String) (t : ClassTransformation) : String :=
  let class_name_pattern := "class " ++ t.class_name
  let positions : Option Nat × Option Nat :=
    match findSub code class_name_pattern with
    | some class_pos =>
        let search_start := class_pos + strLen class_name_pattern
        ( some class_pos,
          (findSub (strDrop code search_start) ("\x7b")).map
            (fun brace_offset => search_start + brace_offset + 1) )
    | none =>
        if t.class_name = "AnonymousClass" then
          let anon_class_pos := findSub code ("class \x7b")
          (anon_class_pos, anon_class_pos.map (fun pos => pos + strLen ("class \x7b")))
        else (none, none)
  match positions with
  | (some class_pos, some injection_point) =>
      let before_class := strTake code class_pos
      let var_injection_pos := find_statement_start before_class class_pos
      let var_decl := "let _initProto, _initClass;\n"
      let code1 := insertStr code var_injection_pos var_decl
      let adjusted_injection_point := injection_point + strLen var_decl
      let code2 := insertStr code1 adjusted_injection_point ("\n  " ++ t.static_block_code)
      if t.needs_instance_init then
        inject_constructor_init code2
          (adjusted_injection_point + strLen t.static_block_code + 3)
      else code2
  | _ => code

/-- `inject_static_blocks` (lib.rs:141-191): fold of the per-record
injection over the recorded transformations. -/
def inject_static_blocks (code : String) (transformations : List ClassTransformation) : String :=
  transformations.foldl injectStaticBlockOne code

/-! ## Pipeline (`lib.rs::transform`) -/

/-- The runtime helper asset (`codegen.rs::generate_helper_functions`),
verbatim; braces and apostrophes appear as character escapes. -/
def generate_helper_functions : String :=
  "function _applyDecs(e,t,n,r,o,i)\x7bvar a,c,u,s,f,l,p,d=Symbol.metadata||Symbol.for(\"Symbol.metadata\"),m=Object.defineProperty,h=Object.create,y=[h(null),h(null)],v=t.length;function g(t,n,r)\x7breturn function(o,i)\x7bn&&(i=o,o=e);for(var a=0;a<t.length;a++)i=t[a].apply(o,r?[i]:[]);return r?i:o\x7d\x7dfunction b(e,t,n,r)\x7bif(\"function\"!=typeof e&&(r||void 0!==e))throw new TypeError(t+\" must \"+(n||\"be\")+\" a function\"+(r?\"\":\" or undefined\"));return e\x7dfunction applyDec(e,t,n,r,o,i,u,s,f,l,p)\x7bfunction d(e)\x7bif(!p(e))throw new TypeError(\"Attempted to access private element on non-instance\")\x7dvar h=[].concat(t[0]),v=t[3],w=!u,D=1===o,S=3===o,j=4===o,E=2===o;function I(t,n,r)\x7breturn function(o,i)\x7breturn n&&(i=o,o=e),r&&r(o),P[t].call(o,i)\x7d\x7dif(!w)\x7bvar P=\x7b\x7d,k=[],F=S?\"get\":j||D?\"set\":\"value\";if(f?(l||D?P=\x7bget:_setFunctionName(function()\x7breturn v(this)\x7d,r,\"get\"),set:function(e)\x7bt[4](this,e)\x7d\x7d:P[F]=v,l||_setFunctionName(P[F],r,E?\"\":F)):l||(P=Object.getOwnPropertyDescriptor(e,r)),!l&&!f)\x7bif((c=y[+s][r])&&7!==(c^o))throw Error(\"Decorating two elements with the same name (\"+P[F].name+\") is not supported yet\");y[+s][r]=o<3?1:o\x7d\x7dfor(var N=e,O=h.length-1;O>=0;O-=n?2:1)\x7bvar T=b(h[O],\"A decorator\",\"be\",!0),z=n?h[O-1]:void 0,A=\x7b\x7d,H=\x7bkind:[\"field\",\"accessor\",\"method\",\"getter\",\"setter\",\"class\"][o],name:r,metadata:a,addInitializer:function(e,t)\x7bif(e.v)throw new TypeError(\"attempted to call addInitializer after decoration was finished\");b(t,\"An initializer\",\"be\",!0),i.push(t)\x7d.bind(null,A)\x7d;if(w)c=T.call(z,N,H),A.v=1,b(c,\"class decorators\",\"return\")&&(N=c);else if(H.static=s,H.private=f,c=H.access=\x7bhas:f?p.bind():function(e)\x7breturn r in e\x7d\x7d,j||(c.get=f?E?function(e)\x7breturn d(e),P.value\x7d:I(\"get\",0,d):function(e)\x7breturn e[r]\x7d),E||S||(c.set=f?I(\"set\",0,d):function(e,t)\x7be[r]=t\x7d),N=T.call(z,D?\x7bget:P.get,set:P.set\x7d:P[F],H),A.v=1,D)\x7bif(\"object\"==typeof N&&N)(c=b(N.get,\"accessor.get\"))&&(P.get=c),(c=b(N.set,\"accessor.set\"))&&(P.set=c),(c=b(N.init,\"accessor.init\"))&&k.unshift(c);else if(void 0!==N)throw new TypeError(\"accessor decorators must return an object with get, set, or init properties or undefined\")\x7delse b(N,(l?\"field\":\"method\")+\" decorators\",\"return\")&&(l?k.unshift(N):P[F]=N)\x7dreturn o<2&&u.push(g(k,s,1),g(i,s,0)),l||w||(f?D?u.splice(-1,0,I(\"get\",s),I(\"set\",s)):u.push(E?P[F]:b.call.bind(P[F])):m(e,r,P)),N\x7dfunction w(e)\x7breturn m(e,d,\x7bconfigurable:!0,enumerable:!0,value:a\x7d)\x7dreturn void 0!==i&&(a=i[d]),a=h(null==a?null:a),f=[],l=function(e)\x7be&&f.push(g(e))\x7d,p=function(t,r)\x7bfor(var i=0;i<n.length;i++)\x7bvar a=n[i],c=a[1],l=7&c;if((8&c)==t&&!l==r)\x7bvar p=a[2],d=!!a[3],m=16&c;applyDec(t?e:e.prototype,a,m,d?\"#\"+p:_toPropertyKey(p),l,l<2?[]:t?s=s||[]:u=u||[],f,!!t,d,r,t&&d?function(t)\x7breturn _checkInRHS(t)===e\x7d:o)\x7d\x7d\x7d,p(8,0),p(0,0),p(8,1),p(0,1),l(u),l(s),c=f,v||w(e),\x7be:c,get c()\x7bvar n=[];return v&&[w(e=applyDec(e,[t],r,e.name,5,n)),g(n,1)]\x7d\x7d\x7d\nfunction _toPropertyKey(t)\x7bvar i=_toPrimitive(t,\"string\");return \"symbol\"==typeof i?i:String(i)\x7d\nfunction _toPrimitive(t,r)\x7bif(\"object\"!=typeof t||!t)return t;var e=t[Symbol.toPrimitive];if(void 0!==e)\x7bvar i=e.call(t,r||\"default\");if(\"object\"!=typeof i)return i;throw new TypeError(\"@@toPrimitive must return a primitive value.\")\x7dreturn(\"string\"===r?String:Number)(t)\x7d\nfunction _setFunctionName(e,t,n)\x7b\"symbol\"==typeof t&&(t=(t=t.description)?\"[\"+t+\"]\":\"\");try\x7bObject.defineProperty(e,\"name\",\x7bconfigurable:!0,value:n?n+\" \"+t:t\x7d)\x7dcatch(e)\x7b\x7dreturn e\x7d\nfunction _checkInRHS(e)\x7bif(Object(e)!==e)throw TypeError(\"right-hand side of \x27in\x27 should be an object, got \"+(null!==e?typeof e:\"null\"));return e\x7d\n"

/-- `needs_helpers` (transformer.rs:122-124): the `helpers_injected` flag,
true once the traversal rewrote at least one class. -/
def needs_helpers (p : List Stmt) : Bool :=
  !(rewrittenStmts p == 0)

/-- The transformations list the pipeline hands to
`inject_static_blocks`: the current transformer records none — the
`transformations` field read at lib.rs:65 does not exist on
`DecoratorTransformer`, whose comment (transformer.rs:257-258) states that
transformations are no longer tracked — so the list is empty. -/
def transformations_recorded : List ClassTransformation := []

/-- The transformer's `errors` vector (transformer.rs:74): initialized
empty and never pushed to by any code path. -/
def transformer_errors : List String := []

/-- Result of the pipeline (`lib.rs::TransformResult`, restricted to the
fields the claims concern; the source map is omitted). -/
structure TransformResult where
  code : String
  errors : List String

/-- `transform` (lib.rs:33-80), from the successfully parsed program on:
short-circuit via `check_for_decorators` (printing the program unchanged),
otherwise traverse, print, run the post-codegen injection, and prepend the
helper asset when at least one class was rewritten. -/
def transform (p : List Stmt) : TransformResult :=
  if !check_for_decorators p then
    { code := printProgram p, errors := [] }
  else
    let transformed := traverseStmts p
    let code0 := printProgram transformed
    let code1 := inject_static_blocks code0 transformations_recorded
    let code2 :=
      if needs_helpers p then generate_helper_functions ++ "\n" ++ code1
      else code1
    { code := code2, errors := transformer_errors }

/-! ## Observation helpers used by the theorems -/

/-- Decorator lists carried by a class element. -/
def elementDecoratorExprs : ClassElement → List Expr
  | .methodDefinition decs _ _ _ _ => decs
  | .propertyDefinition decs _ _ _ => decs
  | .accessorProperty decs _ _ _ => decs
  | _ => []

/-- Property key of a class element, when it has one. -/
def elementKey : ClassElement → Option PropertyKey
  | .methodDefinition _ _ _ key _ => some key
  | .propertyDefinition _ _ key _ => some key
  | .accessorProperty _ _ key _ => some key
  | _ => none

/-- The key string a metadata entry contributes to its descriptor tuples
(the `if meta.is_private \x7b &meta.key[1..] \x7d else ...` of
transformer.rs:338). -/
def emittedKeyOf (m : DecoratorMetadata) : String :=
  if m.is_private then String.mk m.key.data.tail else m.key

/-- First component of a tuple literal. -/
def tupleHead? : Expr → Option Expr
  | .arrayLit (h :: _) => some h
  | _ => none

/-- First components of the tuples of a descriptor-array literal. -/
def tupleHeads : Expr → List Expr
  | .arrayLit ts => ts.filterMap tupleHead?
  | _ => []

/-- The decorator expressions of the class body, printed, member by member
in source order and decorator by decorator in source order. -/
def sourceDecoratorSeq : List ClassElement → List String
  | [] => []
  | e :: t => (elementDecoratorExprs e).map generate_expression_code ++ sourceDecoratorSeq t

/-- Whether an element is a static initialization block. -/
def isStaticBlockElem : ClassElement → Bool
  | .staticBlock _ => true
  | _ => false

/-- Number of static initialization blocks among the elements. -/
def countStaticBlocks : List ClassElement → Nat
  | [] => 0
  | e :: t => (if isStaticBlockElem e then 1 else 0) + countStaticBlocks t

/-- Whether a statement is the guard `if (_initProto) _initProto(this);`. -/
def isInitProtoGuard : Stmt → Bool
  | .ifStmt (.identifierRef a) (.exprStmt (.call (.identifierRef b) [.thisExpr])) =>
      a == "_initProto" && b == "_initProto"
  | _ => false

/-- Number of `_initProto` guards among the statements. -/
def guardCountStmts : List Stmt → Nat
  | [] => 0
  | s :: t => (if isInitProtoGuard s then 1 else 0) + guardCountStmts t

/-- Number of `_initProto` guards at the top level of an element's method
body. -/
def guardCountElement : ClassElement → Nat
  | .methodDefinition _ _ _ _ (some ss) => guardCountStmts ss
  | _ => 0

/-- Number of `_initProto` guards at the top level of the method bodies of
the elements. -/
def guardCount : List ClassElement → Nat
  | [] => 0
  | e :: t => guardCountElement e + guardCount t

/-- Index of the first `super(...)` expression statement. -/
def firstSuperIdx : List Stmt → Option Nat
  | [] => none
  | s :: t => if isSuperCallStmt s then some 0 else (firstSuperIdx t).map (· + 1)

/-! ## Shared lemmas -/

/-- A class with decorators contributes a positive rewrite count. -/
theorem rewrittenClassNode_pos (c : ClassNode) (h : has_decorators c = true) :
    0 < rewrittenClassNode c := by
  cases c with
  | mk i sc decs body =>
      rw [rewrittenClassNode, h]
      simp

/-- When the detector fires, the traversal rewrites at least one class. -/
theorem rewritten_pos_of_check (p : List Stmt) (h : check_for_decorators p = true) :
    0 < rewrittenStmts p := by
  induction p with
  | nil => simp [check_for_decorators] at h
  | cons s t ih =>
      rw [check_for_decorators, List.any_cons, Bool.or_eq_true] at h
      rw [rewrittenStmts]
      rcases h with hs | ht
      · have hpos : 0 < rewrittenStmt s := by
          cases s <;> simp [statement_has_decorators] at hs <;>
            simpa [rewrittenStmt] using rewrittenClassNode_pos _ hs
        omega
      · have := ih ht
        omega

/-- In the rewriting branch, the pipeline's output is exactly the helper
asset, a newline, and the generated code of the traversed program. -/
theorem transform_code_of_check (p : List Stmt) (h : check_for_decorators p = true) :
    (transform p).code = generate_helper_functions ++ "\n" ++ printProgram (traverseStmts p) := by
  have hr : rewrittenStmts p ≠ 0 := Nat.pos_iff_ne_zero.mp (rewritten_pos_of_check p h)
  simp [transform, h, needs_helpers, hr, inject_static_blocks, transformations_recorded]

/-- In the short-circuit branch, the pipeline prints the program
unchanged. -/
theorem transform_code_of_no_check (p : List Stmt) (h : check_for_decorators p = false) :
    (transform p).code = printProgram p := by
  simp [transform, h]

/-! ## C10 -/

/-- C10: for every successfully parsed program the transformer's error
list is empty — `errors` is initialized empty and no code path of the pass
appends to it, so the "unsupported decorator target" and "internal
invariant violation" diagnostics of spec §7 are never produced. -/
theorem c10_errors_always_empty (p : List Stmt) : (transform p).errors = [] := by
  unfold transform
  split <;> rfl

/-! ## C9 -/

/-- C9: the runtime helper asset is prepended, exactly once and at the
very top, iff at least one class was rewritten.  When the detector fires
the traversal rewrites at least one class and the output is exactly the
helper asset, a newline, and the generated code; otherwise no class is
rewritten and the output is exactly the printed input program, with no
helper text prepended. -/
theorem c9_helper_prepend (p : List Stmt) :
    (check_for_decorators p = true ∧ 0 < rewrittenStmts p ∧
      (transform p).code = generate_helper_functions ++ "\n" ++ printProgram (traverseStmts p))
  ∨ (check_for_decorators p = false ∧ (transform p).code = printProgram p) := by
  by_cases h : check_for_decorators p = true
  · exact Or.inl ⟨h, rewritten_pos_of_check p h, transform_code_of_check p h⟩
  · have h' : check_for_decorators p = false := by
      revert h
      cases check_for_decorators p <;> simp
    exact Or.inr ⟨h', transform_code_of_no_check p h'⟩

/-! ## C1 -/

/-- The program `@myDec class C \x7b\x7d`. -/
def c1Input : List Stmt :=
  [Stmt.classDecl (ClassNode.mk (some ("C")) none [Expr.identifierRef ("myDec")] [])]

/-- C1: the claimed class-decorator lift never happens.  On
`@myDec class C \x7b\x7d` the pass rewrites exactly one class, but the
result is still a single class declaration carrying only the standard
static block whose `_applyDecs` call passes `[]` for the class decorators;
the generated code (everything after the prepended helper asset) contains
neither the decorator expression `myDec` nor the claimed
`.c[0]` access — the collected class-decorator list is dropped. -/
theorem c1_class_decorators_dropped :
    rewrittenStmts c1Input = 1
  ∧ (transform c1Input).code
      = generate_helper_functions ++ "\n" ++ printProgram (traverseStmts c1Input)
  ∧ traverseStmts c1Input =
      [Stmt.classDecl (ClassNode.mk (some ("C")) none []
        [ClassElement.staticBlock
          [ Stmt.exprStmt (Expr.arrayAssign ["_initProto", "_initClass"]
              (Expr.memberAccess (Expr.call (Expr.identifierRef ("_applyDecs"))
                [Expr.thisExpr, Expr.arrayLit [], Expr.arrayLit []]) ("e"))),
            Stmt.ifStmt (Expr.identifierRef ("_initClass"))
              (Stmt.exprStmt (Expr.call (Expr.identifierRef ("_initClass")) [])) ]])]
  ∧ countOcc ("myDec") (printProgram (traverseStmts c1Input)) = 0
  ∧ countOcc (".c[0]") (printProgram (traverseStmts c1Input)) = 0 :=
  ⟨rfl, transform_code_of_check c1Input rfl, rfl, by decide, by decide⟩

/-! ## C3 -/

/-- The program `@logged class MyClass \x7b method() \x7b\x7d \x7d`. -/
def c3Input : List Stmt :=
  [Stmt.classDecl (ClassNode.mk (some ("MyClass")) none [Expr.identifierRef ("logged")]
    [ClassElement.methodDefinition [] .plain false (.staticIdentifier ("method")) (some [])])]

/-- C3: the declaration `let _initProto, _initClass;` is never emitted.
On `@logged class MyClass \x7b method() \x7b\x7d \x7d` one class is
rewritten, yet `inject_static_blocks` — the only producer of that
declaration — folds over the recorded transformation list, which is empty
(lib.rs:65 reads a `transformations` field that `DecoratorTransformer`
does not declare, and transformer.rs:257-258 records none), so it returns
the generated code unchanged and the declaration occurs zero times in it,
not once as claimed. -/
theorem c3_let_declaration_never_emitted :
    check_for_decorators c3Input = true
  ∧ 0 < rewrittenStmts c3Input
  ∧ (transform c3Input).code
      = generate_helper_functions ++ "\n" ++ printProgram (traverseStmts c3Input)
  ∧ (∀ code : String, inject_static_blocks code transformations_recorded = code)
  ∧ countOcc ("let _initProto, _initClass;") (printProgram (traverseStmts c3Input)) = 0 :=
  ⟨rfl, by decide, transform_code_of_check c3Input rfl, fun _ => rfl, by decide⟩

/-! ## C4 (counterexample) -/

/-- The program `function f() \x7b class C \x7b @d m() \x7b\x7d \x7d \x7d`:
the only decorators sit on a class nested inside a function body. -/
def c4Input : List Stmt :=
  [Stmt.functionDecl ("f")
    [Stmt.classDecl (ClassNode.mk (some ("C")) none []
      [ClassElement.methodDefinition [Expr.identifierRef ("d")] .plain false
        (.staticIdentifier ("m")) (some [])])]]

/-- C4 counterexample: on a program whose only decorated class is nested
inside a function body, the top-level detector reports no decorators, the
pass returns the printed input unchanged, and the emitted code still
contains the decorator `@d` in decorator position — the output is not
decorator-free, refuting the claim as stated. -/
theorem c4_counterexample :
    check_for_decorators c4Input = false
  ∧ (transform c4Input).code = printProgram c4Input
  ∧ countOcc ("@d ") ((transform c4Input).code) = 1
  ∧ decoratorFreeStmts c4Input = false :=
  ⟨rfl, transform_code_of_no_check c4Input rfl, by decide, rfl⟩

/-! ## C2 -/

/-- The class `class C \x7b @d constructor() \x7b\x7d \x7d`. -/
def c2Class : ClassNode :=
  ClassNode.mk (some ("C")) none []
    [ClassElement.methodDefinition [Expr.identifierRef ("d")] .ctor false
      (.staticIdentifier ("constructor")) (some [])]

/-- C2 counterexample: a decorated constructor is not rejected.  The
collector classifies it as an ordinary method descriptor (kind `method`,
i.e. 2), a descriptor tuple `[d, 2, "constructor", false]` is emitted into
the member descriptor array, the class is rewritten (its body grows by the
appended static block), and the error list stays empty — refuting the
claim that an error is reported, the class is left unmodified and no
descriptor is emitted. -/
theorem c2_counterexample :
    collect_decorator_metadata c2Class.body
      = [{ decorator_names := ["d"], kind := .method, is_static := false,
           is_private := false, key := "constructor" }]
  ∧ build_member_descriptor_array (collect_decorator_metadata c2Class.body)
      = Expr.arrayLit [Expr.arrayLit
          [ Expr.identifierRef ("d"), Expr.numberLit 2,
            Expr.stringLit ("constructor"), Expr.boolLit false ]]
  ∧ (transform_class_with_decorators c2Class).body.length = c2Class.body.length + 1
  ∧ (transform [Stmt.classDecl c2Class]).errors = [] :=
  ⟨rfl, rfl, rfl, rfl⟩

/-- C2 amended: a method definition of constructor kind with a non-empty
decorator list is collected like any method — the `_ => Method` arm of the
kind match covers `Constructor` — producing a metadata entry of kind
`method` with the key string `"constructor"`; no error is reported and the
class is rewritten like any decorated class. -/
theorem c2_amended (decs : List Expr) (st : Bool) (key : PropertyKey)
    (b : Option (List Stmt)) (h : decs ≠ []) :
    collectElement (.methodDefinition decs .ctor st key b)
      = some { decorator_names := decs.map generate_expression_code,
               kind := .method, is_static := st,
               is_private := isPrivateKey key,
               key := get_property_key_name key } := by
  have hne : decs.isEmpty = false := by
    cases decs with
    | nil => exact absurd rfl h
    | cons a t => rfl
  simp [collectElement, hne, extract_decorator_names, methodKindToDecoratorKind]

/-- Witness for the amended C2 at the concrete decorated constructor. -/
theorem c2_amended_witness :
    ([Expr.identifierRef ("d")] : List Expr) ≠ []
  ∧ collectElement (.methodDefinition [Expr.identifierRef ("d")] .ctor false
      (.staticIdentifier ("constructor")) (some []))
      = some { decorator_names := ["d"], kind := .method, is_static := false,
               is_private := false, key := "constructor" } :=
  ⟨by simp, c2_amended [Expr.identifierRef ("d")] false
      (.staticIdentifier ("constructor")) (some []) (by simp)⟩

/-! ## C6 -/

/-- The class `class C \x7b @d "#x"() \x7b\x7d \x7d`: a decorated method
whose key is the string literal `"#x"`. -/
def c6Class : ClassNode :=
  ClassNode.mk (some ("C")) none []
    [ClassElement.methodDefinition [Expr.identifierRef ("d")] .plain false
      (.stringLiteral ("#x")) (some [])]

/-- C6 counterexample: the emitted key string can begin with `#`.  For a
decorated method whose key is the string literal `"#x"` the member is not
private, so the key is emitted verbatim as `"#x"` — its first character is
`#` — refuting the claim that the key string never begins with `#`. -/
theorem c6_counterexample :
    build_member_descriptor_array (collect_decorator_metadata c6Class.body)
      = Expr.arrayLit [Expr.arrayLit
          [ Expr.identifierRef ("d"), Expr.numberLit 2,
            Expr.stringLit ("#x"), Expr.boolLit false ]]
  ∧ ("#x").data.head? = some '#' :=
  ⟨rfl, rfl⟩

/-- The per-member descriptor facts of the amended C6, for a metadata
entry `m` collected from element `e`. -/
def C6Facts (e : ClassElement) (m : DecoratorMetadata) : Prop :=
  descriptorsForMeta m = m.decorator_names.map (fun dn =>
      Expr.arrayLit
        [ Expr.identifierRef dn,
          Expr.numberLit (m.kind.code + (if m.is_static then 8 else 0)),
          Expr.stringLit (emittedKeyOf m),
          Expr.boolLit m.is_private ])
  ∧ (∀ n, elementKey e = some (.privateIdentifier n) →
      m.is_private = true ∧ emittedKeyOf m = n)
  ∧ (∀ n, elementKey e = some (.staticIdentifier n) →
      m.is_private = false ∧ emittedKeyOf m = n)
  ∧ (∀ s, elementKey e = some (.stringLiteral s) →
      m.is_private = false ∧ emittedKeyOf m = s)
  ∧ (∀ s, elementKey e = some (.numericLiteral s) →
      m.is_private = false ∧ emittedKeyOf m = s)
  ∧ (elementKey e = some .computed →
      m.is_private = false ∧ emittedKeyOf m = "computed")

/-- The `u8` bitwise or of the flags computation coincides with addition:
the kind code is below 8. -/
theorem lor_flags (k : DecoratorKind) (st : Bool) :
    Nat.lor k.code (if st then 8 else 0) = k.code + (if st then 8 else 0) := by
  cases k <;> cases st <;> decide

/-- C6 amended: every descriptor tuple is `[decorator, flags, key,
isPrivate]` with `flags = kind + (static ? 8 : 0)` (equal to the bitwise
or, so a static setter gets 12); a private member's key is its name with
the leading `#` stripped and private-ness is carried by the fourth
element; identifier, string-literal and numeric keys are emitted verbatim
— so a string-literal key may itself begin with `#` — and computed keys
yield the literal string `"computed"`. -/
theorem c6_amended (e : ClassElement) (m : DecoratorMetadata)
    (h : collectElement e = some m) : C6Facts e m := by
  constructor
  · simp only [descriptorsForMeta, lor_flags, emittedKeyOf]
  · cases e with
    | methodDefinition decs k st key b =>
        rw [collectElement] at h
        by_cases hd : decs.isEmpty = true
        · simp [hd] at h
        · rw [Bool.not_eq_true] at hd
          simp only [hd, Bool.false_eq_true, if_false, Option.some.injEq] at h
          subst h
          cases key <;>
            simp [elementKey, emittedKeyOf, isPrivateKey, get_property_key_name]
    | propertyDefinition decs st key v =>
        rw [collectElement] at h
        by_cases hd : decs.isEmpty = true
        · simp [hd] at h
        · rw [Bool.not_eq_true] at hd
          simp only [hd, Bool.false_eq_true, if_false, Option.some.injEq] at h
          subst h
          cases key <;>
            simp [elementKey, emittedKeyOf, isPrivateKey, get_property_key_name]
    | accessorProperty decs st key v =>
        rw [collectElement] at h
        by_cases hd : decs.isEmpty = true
        · simp [hd] at h
        · rw [Bool.not_eq_true] at hd
          simp only [hd, Bool.false_eq_true, if_false, Option.some.injEq] at h
          subst h
          cases key <;>
            simp [elementKey, emittedKeyOf, isPrivateKey, get_property_key_name]
    | staticBlock b => simp [collectElement] at h
    | otherElement => simp [collectElement] at h

/-- Witness for the amended C6 at a decorated private static setter. -/
theorem c6_amended_witness :
    collectElement (.methodDefinition [Expr.identifierRef ("d")] .set true
        (.privateIdentifier ("s")) (some []))
      = some { decorator_names := ["d"], kind := .setter, is_static := true,
               is_private := true, key := "#s" }
  ∧ C6Facts (.methodDefinition [Expr.identifierRef ("d")] .set true
        (.privateIdentifier ("s")) (some []))
      { decorator_names := ["d"], kind := .setter, is_static := true,
        is_private := true, key := "#s" } :=
  ⟨rfl, c6_amended _ _ rfl⟩

/-! ## C8 -/

/-- Heads of the tuples contributed by a single metadata entry. -/
theorem filterMap_tupleHead_descriptorsForMeta (m : DecoratorMetadata) :
    (descriptorsForMeta m).filterMap tupleHead?
      = m.decorator_names.map Expr.identifierRef := by
  rw [descriptorsForMeta]
  induction m.decorator_names with
  | nil => rfl
  | cons dn t ih => simpa [List.filterMap_cons, tupleHead?] using ih

/-- The decorator-name list a collected element carries is the printed
form of the element's own decorator list, in order. -/
theorem collectElement_names (e : ClassElement) (m : DecoratorMetadata)
    (h : collectElement e = some m) :
    m.decorator_names = (elementDecoratorExprs e).map generate_expression_code := by
  cases e with
  | methodDefinition decs k st key b =>
      rw [collectElement] at h
      by_cases hd : decs.isEmpty = true
      · simp [hd] at h
      · rw [Bool.not_eq_true] at hd
        simp only [hd, Bool.false_eq_true, if_false, Option.some.injEq] at h
        subst h
        simp [extract_decorator_names, elementDecoratorExprs]
  | propertyDefinition decs st key v =>
      rw [collectElement] at h
      by_cases hd : decs.isEmpty = true
      · simp [hd] at h
      · rw [Bool.not_eq_true] at hd
        simp only [hd, Bool.false_eq_true, if_false, Option.some.injEq] at h
        subst h
        simp [extract_decorator_names, elementDecoratorExprs]
  | accessorProperty decs st key v =>
      rw [collectElement] at h
      by_cases hd : decs.isEmpty = true
      · simp [hd] at h
      · rw [Bool.not_eq_true] at hd
        simp only [hd, Bool.false_eq_true, if_false, Option.some.injEq] at h
        subst h
        simp [extract_decorator_names, elementDecoratorExprs]
  | staticBlock b => simp [collectElement] at h
  | otherElement => simp [collectElement] at h

/-- An element that contributes no metadata has no decorators. -/
theorem collectElement_none_decs (e : ClassElement)
    (h : collectElement e = none) : elementDecoratorExprs e = [] := by
  cases e with
  | methodDefinition decs k st key b =>
      cases decs with
      | nil => rfl
      | cons a t => simp [collectElement] at h
  | propertyDefinition decs st key v =>
      cases decs with
      | nil => rfl
      | cons a t => simp [collectElement] at h
  | accessorProperty decs st key v =>
      cases decs with
      | nil => rfl
      | cons a t => simp [collectElement] at h
  | staticBlock b => rfl
  | otherElement => rfl

/-- C8: the sequence of decorator expressions in the emitted descriptor
array — the first component of each tuple, in order — equals, printed, the
sequence of decorator expressions of the class body's decorated members in
source order of members and, within one member, in source order of the
decorators (outermost first, so that reverse iteration over one member's
decorators applies the innermost first). -/
theorem c8_order_preserved (body : List ClassElement) :
    tupleHeads (build_member_descriptor_array (collect_decorator_metadata body))
      = (sourceDecoratorSeq body).map Expr.identifierRef := by
  induction body with
  | nil => rfl
  | cons e t ih =>
      cases he : collectElement e with
      | none =>
          rw [sourceDecoratorSeq, List.map_append, collectElement_none_decs e he]
          simp only [List.map_nil, List.nil_append]
          simp only [collect_decorator_metadata, List.filterMap_cons, he]
          exact ih
      | some m =>
          rw [sourceDecoratorSeq, List.map_append]
          simp only [collect_decorator_metadata, List.filterMap_cons, he]
          have hfold :
              build_member_descriptor_array (m :: t.filterMap collectElement)
                = Expr.arrayLit (descriptorsForMeta m
                    ++ ((t.filterMap collectElement).foldr
                        (fun x acc => descriptorsForMeta x ++ acc) [])) := rfl
          rw [hfold, tupleHeads, List.filterMap_append,
            filterMap_tupleHead_descriptorsForMeta,
            collectElement_names e m he, List.map_map]
          have htail :
              ((t.filterMap collectElement).foldr
                  (fun x acc => descriptorsForMeta x ++ acc) []).filterMap tupleHead?
                = tupleHeads (build_member_descriptor_array (t.filterMap collectElement)) := rfl
          rw [htail]
          have ih' : tupleHeads (build_member_descriptor_array (t.filterMap collectElement))
              = List.map Expr.identifierRef (sourceDecoratorSeq t) := ih
          rw [ih']

/-! ## Lemmas about the per-class rewrite, shared by C5 and C7 -/

/-- A class without decorators is returned unchanged. -/
theorem transform_class_id (c : ClassNode) (h : has_decorators c = false) :
    transform_class_with_decorators c = c := by
  simp [transform_class_with_decorators, h]

/-- An element with decorators contributes a metadata entry. -/
theorem collectElement_isSome_of_has (e : ClassElement)
    (h : elementHasDecorators e = true) : (collectElement e).isSome = true := by
  cases e with
  | methodDefinition decs k st key b =>
      cases decs with
      | nil => simp [elementHasDecorators] at h
      | cons a t => simp [collectElement]
  | propertyDefinition decs st key v =>
      cases decs with
      | nil => simp [elementHasDecorators] at h
      | cons a t => simp [collectElement]
  | accessorProperty decs st key v =>
      cases decs with
      | nil => simp [elementHasDecorators] at h
      | cons a t => simp [collectElement]
  | staticBlock b => simp [elementHasDecorators] at h
  | otherElement => simp [elementHasDecorators] at h

/-- A body with a decorated element yields non-empty metadata. -/
theorem collect_nonempty_of_any (body : List ClassElement)
    (h : body.any elementHasDecorators = true) :
    (collect_decorator_metadata body).isEmpty = false := by
  induction body with
  | nil => simp at h
  | cons e t ih =>
      rw [List.any_cons, Bool.or_eq_true] at h
      rcases h with he | ht
      · have := collectElement_isSome_of_has e he
        cases hm : collectElement e with
        | none => rw [hm] at this; simp at this
        | some m => simp [collect_decorator_metadata, List.filterMap_cons, hm]
      · cases hm : collectElement e with
        | none => simpa [collect_decorator_metadata, List.filterMap_cons, hm] using ih ht
        | some m => simp [collect_decorator_metadata, List.filterMap_cons, hm]

/-- A decorated class passes the non-emptiness test guarding the rewrite
(transformer.rs:244). -/
theorem rewrite_condition (c : ClassNode) (h : has_decorators c = true) :
    (!(collect_decorator_metadata c.body).isEmpty
      || !(collect_class_decorators c).isEmpty) = true := by
  rw [has_decorators, Bool.or_eq_true] at h
  rcases h with hd | hb
  · cases c with
    | mk i sc decs body =>
        cases decs with
        | nil => simp [ClassNode.decorators] at hd
        | cons a t => simp [collect_class_decorators, ClassNode.decorators]
  · rw [collect_nonempty_of_any c.body hb]
    rfl

/-- The rewritten class of a decorated input, in closed form. -/
theorem transform_class_eq (c : ClassNode) (h : has_decorators c = true) :
    transform_class_with_decorators c
      = ClassNode.mk c.ident c.superClass []
          ((if needsInstanceInitOf (collect_decorator_metadata c.body) then
              ensure_constructor_with_init c.superClass.isSome
                (c.body ++ [create_decorator_static_block
                  (collect_decorator_metadata c.body) (collect_class_decorators c)])
            else
              c.body ++ [create_decorator_static_block
                (collect_decorator_metadata c.body) (collect_class_decorators c)]).map
            clearElementDecorators) := by
  rw [transform_class_with_decorators]
  rw [h]
  simp only [Bool.not_true, Bool.false_eq_true, if_false]
  rw [rewrite_condition c h]
  simp only [if_true]

/-- Appending a non-constructor element does not change the constructor
index. -/
theorem findCtorIdx_append_single (l : List ClassElement) (b : ClassElement)
    (hb : isConstructorElement b = false) :
    findCtorIdx (l ++ [b]) = findCtorIdx l := by
  induction l with
  | nil => simp [findCtorIdx, hb]
  | cons e t ih => by_cases he : isConstructorElement e = true <;> simp [findCtorIdx, he, ih]

/-- The constructor index is a valid position. -/
theorem findCtorIdx_lt_length (l : List ClassElement) (i : Nat)
    (h : findCtorIdx l = some i) : i < l.length := by
  induction l generalizing i with
  | nil => simp [findCtorIdx] at h
  | cons e t ih =>
      rw [findCtorIdx] at h
      by_cases he : isConstructorElement e = true
      · simp only [he, if_true, Option.some.injEq] at h
        simp [← h]
      · rw [Bool.not_eq_true] at he
        simp only [he, Bool.false_eq_true, if_false, Option.map_eq_some'] at h
        obtain ⟨j, hj, hji⟩ := h
        have := ih j hj
        simp only [List.length_cons]
        omega

/-- Modifying inside the left part of an append. -/
theorem modifyAt_append_left (l r : List α) (i : Nat) (f : α → α)
    (h : i < l.length) : modifyAt (l ++ r) i f = modifyAt l i f ++ r := by
  induction l generalizing i with
  | nil => simp at h
  | cons a t ih =>
      cases i with
      | zero => rfl
      | succ n =>
          have : n < t.length := by simpa using h
          simp [modifyAt, ih n this]

/-- The static block is not a constructor element. -/
theorem staticBlock_not_ctor (md : List DecoratorMetadata) (cds : List String) :
    isConstructorElement (create_decorator_static_block md cds) = false := rfl

/-- Clearing decorators fixes the injected static block. -/
theorem clear_staticBlock (md : List DecoratorMetadata) (cds : List String) :
    clearElementDecorators (create_decorator_static_block md cds)
      = create_decorator_static_block md cds := rfl

/-- Counting static blocks distributes over append. -/
theorem countStaticBlocks_append (l1 l2 : List ClassElement) :
    countStaticBlocks (l1 ++ l2) = countStaticBlocks l1 + countStaticBlocks l2 := by
  induction l1 with
  | nil => simp [countStaticBlocks]
  | cons e t ih => rw [List.cons_append, countStaticBlocks, countStaticBlocks, ih]; omega

/-- The constructor guard insertion does not produce a static block. -/
theorem isStaticBlock_addGuard (e : ClassElement) :
    isStaticBlockElem (addGuardToCtor e) = isStaticBlockElem e := by
  cases e with
  | methodDefinition decs k st key b => cases b <;> rfl
  | propertyDefinition decs st key v => rfl
  | accessorProperty decs st key v => rfl
  | staticBlock b => rfl
  | otherElement => rfl

/-- Clearing decorators does not change static-block-ness. -/
theorem isStaticBlock_clear (e : ClassElement) :
    isStaticBlockElem (clearElementDecorators e) = isStaticBlockElem e := by
  cases e <;> rfl

/-- Guard insertion at an index preserves the static-block count. -/
theorem countStaticBlocks_modifyAt (l : List ClassElement) (i : Nat) :
    countStaticBlocks (modifyAt l i addGuardToCtor) = countStaticBlocks l := by
  induction l generalizing i with
  | nil => rfl
  | cons e t ih =>
      cases i with
      | zero => rw [modifyAt, countStaticBlocks, countStaticBlocks, isStaticBlock_addGuard]
      | succ n => rw [modifyAt, countStaticBlocks, countStaticBlocks, ih n]

/-- Clearing decorators preserves the static-block count. -/
theorem countStaticBlocks_map_clear (l : List ClassElement) :
    countStaticBlocks (l.map clearElementDecorators) = countStaticBlocks l := by
  induction l with
  | nil => rfl
  | cons e t ih => rw [List.map_cons, countStaticBlocks, countStaticBlocks, isStaticBlock_clear, ih]

/-- The rewritten body splits into a prefix derived from the original body
— same static-block count — followed by the injected static block. -/
theorem transform_body_split (c : ClassNode) (h : has_decorators c = true) :
    ∃ Y : List ClassElement,
      (transform_class_with_decorators c).body
        = Y.map clearElementDecorators
          ++ [create_decorator_static_block
              (collect_decorator_metadata c.body) (collect_class_decorators c)]
      ∧ countStaticBlocks Y = countStaticBlocks c.body := by
  cases c with
  | mk ci csc cdecs cbody =>
      rw [transform_class_eq _ h]
      simp only [ClassNode.ident, ClassNode.superClass, ClassNode.body]
      by_cases hn : needsInstanceInitOf (collect_decorator_metadata cbody) = true
      · rw [hn]
        simp only [if_true]
        rw [ensure_constructor_with_init,
          findCtorIdx_append_single cbody _ (staticBlock_not_ctor _ _)]
        cases hidx : findCtorIdx cbody with
        | none =>
            refine ⟨create_constructor_with_init csc.isSome :: cbody, ?_, ?_⟩
            · simp [insertAt, List.map_append, clear_staticBlock]
            · have hns : isStaticBlockElem (create_constructor_with_init csc.isSome) = false := by
                cases hs : csc.isSome <;> rfl
              rw [countStaticBlocks, hns]
              simp
        | some i =>
            refine ⟨modifyAt cbody i addGuardToCtor, ?_, countStaticBlocks_modifyAt cbody i⟩
            have hlt := findCtorIdx_lt_length cbody i hidx
            simp [modifyAt_append_left cbody _ i addGuardToCtor hlt,
              List.map_append, clear_staticBlock]
      · rw [Bool.not_eq_true] at hn
        rw [hn]
        simp only [Bool.false_eq_true, if_false]
        exact ⟨cbody, by simp [List.map_append, clear_staticBlock], rfl⟩

/-! ## C5 -/

/-- C5: every rewritten class body ends with exactly one static block
added by the pass, whose body is precisely the two statements
`[_initProto, _initClass] = _applyDecs(this, members, []).e;` and
`if (_initClass) _initClass();` — the third `_applyDecs` argument (the
class decorators) is always the empty array — and the pass adds exactly
one static block (the count grows by one over the original body). -/
theorem c5_static_block_appended (c : ClassNode) (h : has_decorators c = true) :
    (transform_class_with_decorators c).body.getLast?
      = some (ClassElement.staticBlock
          [ Stmt.exprStmt (Expr.arrayAssign ["_initProto", "_initClass"]
              (Expr.memberAccess (Expr.call (Expr.identifierRef ("_applyDecs"))
                [ Expr.thisExpr,
                  build_member_descriptor_array (collect_decorator_metadata c.body),
                  Expr.arrayLit [] ]) ("e"))),
            Stmt.ifStmt (Expr.identifierRef ("_initClass"))
              (Stmt.exprStmt (Expr.call (Expr.identifierRef ("_initClass")) [])) ])
  ∧ countStaticBlocks (transform_class_with_decorators c).body
      = countStaticBlocks c.body + 1 := by
  obtain ⟨Y, hbody, hcount⟩ := transform_body_split c h
  constructor
  · rw [hbody, List.getLast?_concat]
    rfl
  · rw [hbody, countStaticBlocks_append, countStaticBlocks_map_clear, hcount]
    rfl

/-- Witness for C5: the class `class C \x7b @w m() \x7b\x7d \x7d`. -/
def c5Class : ClassNode :=
  ClassNode.mk (some ("C")) none []
    [ClassElement.methodDefinition [Expr.identifierRef ("w")] .plain false
      (.staticIdentifier ("m")) (some [])]

/-- Witness for C5 at a concrete decorated class. -/
theorem c5_static_block_appended_witness :
    has_decorators c5Class = true
  ∧ ((transform_class_with_decorators c5Class).body.getLast?
      = some (ClassElement.staticBlock
          [ Stmt.exprStmt (Expr.arrayAssign ["_initProto", "_initClass"]
              (Expr.memberAccess (Expr.call (Expr.identifierRef ("_applyDecs"))
                [ Expr.thisExpr,
                  build_member_descriptor_array (collect_decorator_metadata c5Class.body),
                  Expr.arrayLit [] ]) ("e"))),
            Stmt.ifStmt (Expr.identifierRef ("_initClass"))
              (Stmt.exprStmt (Expr.call (Expr.identifierRef ("_initClass")) [])) ])
    ∧ countStaticBlocks (transform_class_with_decorators c5Class).body
        = countStaticBlocks c5Class.body + 1) :=
  ⟨rfl, c5_static_block_appended c5Class rfl⟩

/-! ## C7 -/

/-- The class
`class C \x7b @d x = 1; constructor(a: number); constructor(a: any) \x7b\x7d \x7d`:
a decorated non-static field together with a TypeScript constructor
overload signature (a constructor-kind method definition without a body)
preceding the implementation. -/
def c7Class : ClassNode :=
  ClassNode.mk (some ("C")) none []
    [ ClassElement.propertyDefinition [Expr.identifierRef ("d")] false
        (.staticIdentifier ("x")) (some (Expr.numberLit 1)),
      ClassElement.methodDefinition [] .ctor false
        (.staticIdentifier ("constructor")) none,
      ClassElement.methodDefinition [] .ctor false
        (.staticIdentifier ("constructor")) (some []) ]

/-- C7 counterexample: instance initialization is needed (a non-static
field is decorated) and the class has constructors, yet the rewritten
class contains no `if (_initProto) _initProto(this);` guard anywhere: the
first constructor element is a bodiless overload signature, and
`ensure_constructor_with_init` silently does nothing to a constructor
without a body — refuting the claim that the guard is added whenever a
non-static member decorator exists. -/
theorem c7_counterexample :
    needsInstanceInitOf (collect_decorator_metadata c7Class.body) = true
  ∧ findCtorIdx c7Class.body = some 1
  ∧ guardCount (transform_class_with_decorators c7Class).body = 0 :=
  ⟨rfl, rfl, rfl⟩

/-- `find_super_call_insert_position` returns the position immediately
after the first `super(...)` expression statement, and `0` when there is
none. -/
theorem find_super_spec (ss : List Stmt) :
    find_super_call_insert_position ss
      = (match firstSuperIdx ss with
         | some j => j + 1
         | none => 0) := by
  induction ss with
  | nil => rfl
  | cons s t ih =>
      rw [find_super_call_insert_position, firstSuperIdx]
      by_cases hs : isSuperCallStmt s = true
      · simp [hs]
      · rw [Bool.not_eq_true] at hs
        simp only [hs, Bool.false_eq_true, if_false]
        rw [ih]
        cases ht : firstSuperIdx t <;> simp

/-- The conclusions of the amended C7 for one class `c`. -/
def C7Facts (c : ClassNode) : Prop :=
  (needsInstanceInitOf (collect_decorator_metadata c.body) = false →
      (transform_class_with_decorators c).body
        = c.body.map clearElementDecorators
            ++ [create_decorator_static_block
                (collect_decorator_metadata c.body) (collect_class_decorators c)])
  ∧ (needsInstanceInitOf (collect_decorator_metadata c.body) = true →
      findCtorIdx c.body = none →
      (transform_class_with_decorators c).body
        = create_constructor_with_init c.superClass.isSome
            :: (c.body.map clearElementDecorators
                ++ [create_decorator_static_block
                    (collect_decorator_metadata c.body) (collect_class_decorators c)]))
  ∧ (needsInstanceInitOf (collect_decorator_metadata c.body) = true →
      ∀ i, findCtorIdx c.body = some i →
      (transform_class_with_decorators c).body
        = (modifyAt c.body i addGuardToCtor).map clearElementDecorators
            ++ [create_decorator_static_block
                (collect_decorator_metadata c.body) (collect_class_decorators c)])
  ∧ (∀ ss : List Stmt,
      find_super_call_insert_position ss
        = (match firstSuperIdx ss with
           | some j => j + 1
           | none => 0))
  ∧ (∀ (decs : List Expr) (k : MethodKind) (st : Bool) (key : PropertyKey)
        (ss : List Stmt),
      addGuardToCtor (.methodDefinition decs k st key (some ss))
        = .methodDefinition decs k st key
            (some (insertAt ss (find_super_call_insert_position ss)
              (Stmt.ifStmt (Expr.identifierRef ("_initProto"))
                (Stmt.exprStmt (Expr.call (Expr.identifierRef ("_initProto"))
                  [Expr.thisExpr]))))))
  ∧ (∀ (decs : List Expr) (k : MethodKind) (st : Bool) (key : PropertyKey),
      addGuardToCtor (.methodDefinition decs k st key none)
        = .methodDefinition decs k st key none)
  ∧ create_constructor_with_init true
      = .methodDefinition [] .ctor false (.staticIdentifier ("constructor"))
          (some [ Stmt.exprStmt (Expr.call Expr.superExpr []),
                  Stmt.ifStmt (Expr.identifierRef ("_initProto"))
                    (Stmt.exprStmt (Expr.call (Expr.identifierRef ("_initProto"))
                      [Expr.thisExpr])) ])
  ∧ create_constructor_with_init false
      = .methodDefinition [] .ctor false (.staticIdentifier ("constructor"))
          (some [ Stmt.ifStmt (Expr.identifierRef ("_initProto"))
                    (Stmt.exprStmt (Expr.call (Expr.identifierRef ("_initProto"))
                      [Expr.thisExpr])) ])

/-- C7 amended: for a rewritten class, the `_initProto` guard machinery
runs iff some non-static member decorator exists, with one exception
forced by the counterexample: when the first constructor element has no
body (a TS overload signature) it is left untouched and no guard is
inserted.  When no constructor exists, a constructor is synthesized at
position 0 containing `super();` iff the class has a superclass, followed
by the guard; when the first constructor has a body, the guard is inserted
immediately after the first `super(...)` expression statement, or at
position 0 of the body when there is none. -/
theorem c7_amended (c : ClassNode) (h : has_decorators c = true) : C7Facts c := by
  refine ⟨?_, ?_, ?_, find_super_spec, fun _ _ _ _ _ => rfl, fun _ _ _ _ => rfl, rfl, rfl⟩
  · intro hn
    cases c with
    | mk ci csc cdecs cbody =>
        rw [transform_class_eq _ h]
        simp only [ClassNode.ident, ClassNode.superClass, ClassNode.body] at hn ⊢
        rw [hn]
        simp [List.map_append, clear_staticBlock]
  · intro hn hidx
    cases c with
    | mk ci csc cdecs cbody =>
        rw [transform_class_eq _ h]
        simp only [ClassNode.ident, ClassNode.superClass, ClassNode.body] at hn hidx ⊢
        rw [hn]
        simp only [if_true]
        rw [ensure_constructor_with_init,
          findCtorIdx_append_single cbody _ (staticBlock_not_ctor _ _), hidx]
        have hcc : clearElementDecorators (create_constructor_with_init csc.isSome)
            = create_constructor_with_init csc.isSome := by
          cases hs : csc.isSome <;> rfl
        simp [insertAt, List.map_append, clear_staticBlock, hcc]
  · intro hn i hidx
    cases c with
    | mk ci csc cdecs cbody =>
        rw [transform_class_eq _ h]
        simp only [ClassNode.ident, ClassNode.superClass, ClassNode.body] at hn hidx ⊢
        rw [hn]
        simp only [if_true]
        rw [ensure_constructor_with_init,
          findCtorIdx_append_single cbody _ (staticBlock_not_ctor _ _), hidx]
        have hlt := findCtorIdx_lt_length cbody i hidx
        simp [modifyAt_append_left cbody _ i addGuardToCtor hlt,
          List.map_append, clear_staticBlock]

/-- Witness class for the amended C7: spec scenario 6,
`class C extends B \x7b @d x = 1; constructor() \x7b super(42); log(); \x7d \x7d`. -/
def c7WitnessClass : ClassNode :=
  ClassNode.mk (some ("C")) (some (Expr.identifierRef ("B"))) []
    [ ClassElement.propertyDefinition [Expr.identifierRef ("d")] false
        (.staticIdentifier ("x")) (some (Expr.numberLit 1)),
      ClassElement.methodDefinition [] .ctor false
        (.staticIdentifier ("constructor"))
        (some [ Stmt.exprStmt (Expr.call Expr.superExpr [Expr.numberLit 42]),
                Stmt.exprStmt (Expr.call (Expr.identifierRef ("log")) []) ]) ]

/-- Witness for the amended C7 at the concrete subclass with an existing
`super(42)`-calling constructor. -/
theorem c7_amended_witness :
    has_decorators c7WitnessClass = true ∧ C7Facts c7WitnessClass :=
  ⟨rfl, c7_amended c7WitnessClass rfl⟩

/-! ## Lemmas for the amended C4 -/

/-- The traversal does not touch an element's decorator list. -/
theorem elementHas_traverse (e : ClassElement) :
    elementHasDecorators (traverseElement e) = elementHasDecorators e := by
  cases e <;> rfl

/-- Consequently the per-body decorator test is traversal-invariant. -/
theorem any_elementHas_traverse (l : List ClassElement) :
    (traverseElements l).any elementHasDecorators = l.any elementHasDecorators := by
  induction l with
  | nil => rfl
  | cons e t ih => rw [traverseElements, List.any_cons, List.any_cons, elementHas_traverse, ih]

/-- Decorator-freeness of statements distributes over append. -/
theorem decoratorFreeStmts_append (l1 l2 : List Stmt) :
    decoratorFreeStmts (l1 ++ l2) = (decoratorFreeStmts l1 && decoratorFreeStmts l2) := by
  induction l1 with
  | nil => simp [decoratorFreeStmts]
  | cons s t ih =>
      rw [List.cons_append, decoratorFreeStmts, decoratorFreeStmts, ih, Bool.and_assoc]

/-- Decorator-freeness of expressions distributes over append. -/
theorem decoratorFreeExprs_append (l1 l2 : List Expr) :
    decoratorFreeExprs (l1 ++ l2) = (decoratorFreeExprs l1 && decoratorFreeExprs l2) := by
  induction l1 with
  | nil => simp [decoratorFreeExprs]
  | cons e t ih =>
      rw [List.cons_append, decoratorFreeExprs, decoratorFreeExprs, ih, Bool.and_assoc]

/-- Decorator-freeness of elements distributes over append. -/
theorem decoratorFreeElements_append (l1 l2 : List ClassElement) :
    decoratorFreeElements (l1 ++ l2)
      = (decoratorFreeElements l1 && decoratorFreeElements l2) := by
  induction l1 with
  | nil => simp [decoratorFreeElements]
  | cons e t ih =>
      rw [List.cons_append, decoratorFreeElements, decoratorFreeElements, ih, Bool.and_assoc]

/-- The descriptor tuples of one metadata entry are decorator-free. -/
theorem free_descriptorsForMeta (m : DecoratorMetadata) :
    decoratorFreeExprs (descriptorsForMeta m) = true := by
  rw [descriptorsForMeta]
  generalize m.decorator_names = names
  induction names with
  | nil => rfl
  | cons dn t ih =>
      rw [List.map_cons, decoratorFreeExprs, ih]
      rfl

/-- The member descriptor array is decorator-free. -/
theorem free_buildArr (md : List DecoratorMetadata) :
    decoratorFreeExpr (build_member_descriptor_array md) = true := by
  rw [build_member_descriptor_array]
  induction md with
  | nil => rfl
  | cons m t ih =>
      rw [List.foldr_cons, decoratorFreeExpr, decoratorFreeExprs_append,
        free_descriptorsForMeta]
      rw [decoratorFreeExpr] at ih
      simpa using ih

/-- The injected static block is decorator-free. -/
theorem free_staticBlock (md : List DecoratorMetadata) (cds : List String) :
    decoratorFreeElement (create_decorator_static_block md cds) = true := by
  have hb : decoratorFreeExpr (build_member_descriptor_array md) = true := free_buildArr md
  rw [build_member_descriptor_array, decoratorFreeExpr] at hb
  simp [create_decorator_static_block, build_apply_decs_assignment,
    build_init_class_if_statement, decoratorFreeElement, decoratorFreeStmts,
    decoratorFreeStmt, decoratorFreeExpr, decoratorFreeExprs, hb]

/-- The synthesized constructor is decorator-free. -/
theorem free_ctorNew (b : Bool) :
    decoratorFreeElement (create_constructor_with_init b) = true := by
  cases b <;> rfl

/-- Clearing fixes the synthesized constructor. -/
theorem clear_ctorNew (b : Bool) :
    clearElementDecorators (create_constructor_with_init b)
      = create_constructor_with_init b := by
  cases b <;> rfl

/-- A prefix of a decorator-free statement list is decorator-free. -/
theorem freeStmts_take (l : List Stmt) (h : decoratorFreeStmts l = true) (i : Nat) :
    decoratorFreeStmts (l.take i) = true := by
  induction l generalizing i with
  | nil => simp [decoratorFreeStmts]
  | cons s t ih =>
      cases i with
      | zero => rfl
      | succ n =>
          rw [decoratorFreeStmts, Bool.and_eq_true] at h
          rw [List.take_succ_cons, decoratorFreeStmts, h.1, ih h.2 n]
          rfl

/-- A suffix of a decorator-free statement list is decorator-free. -/
theorem freeStmts_drop (l : List Stmt) (h : decoratorFreeStmts l = true) (i : Nat) :
    decoratorFreeStmts (l.drop i) = true := by
  induction l generalizing i with
  | nil => simp [decoratorFreeStmts]
  | cons s t ih =>
      cases i with
      | zero => exact h
      | succ n =>
          rw [decoratorFreeStmts, Bool.and_eq_true] at h
          exact ih h.2 n

/-- Inserting a decorator-free statement preserves decorator-freeness. -/
theorem free_insertAt (l : List Stmt) (i : Nat) (a : Stmt)
    (hl : decoratorFreeStmts l = true) (ha : decoratorFreeStmt a = true) :
    decoratorFreeStmts (insertAt l i a) = true := by
  rw [insertAt, decoratorFreeStmts_append, freeStmts_take l hl i,
    decoratorFreeStmts, ha, freeStmts_drop l hl i]
  rfl

/-- The guard insertion preserves decorator-freeness of the cleared
element. -/
theorem free_clear_addGuard (x : ClassElement)
    (hx : decoratorFreeElement (clearElementDecorators x) = true) :
    decoratorFreeElement (clearElementDecorators (addGuardToCtor x)) = true := by
  cases x with
  | methodDefinition decs k st key b =>
      cases b with
      | none => exact hx
      | some ss =>
          rw [clearElementDecorators, decoratorFreeElement] at hx
          rw [addGuardToCtor, clearElementDecorators, decoratorFreeElement]
          simp only [decoratorFreeOptStmts] at hx ⊢
          simp only [List.isEmpty_nil, Bool.true_and] at hx ⊢
          exact free_insertAt ss _ _ hx rfl
  | propertyDefinition decs st key v => exact hx
  | accessorProperty decs st key v => exact hx
  | staticBlock b => exact hx
  | otherElement => exact hx

/-- Guard insertion at any index preserves decorator-freeness of the
cleared elements. -/
theorem free_clear_modifyAt (l : List ClassElement) (i : Nat)
    (h : decoratorFreeElements (l.map clearElementDecorators) = true) :
    decoratorFreeElements ((modifyAt l i addGuardToCtor).map clearElementDecorators) = true := by
  induction l generalizing i with
  | nil => rfl
  | cons x t ih =>
      rw [List.map_cons, decoratorFreeElements, Bool.and_eq_true] at h
      cases i with
      | zero =>
          rw [modifyAt, List.map_cons, decoratorFreeElements,
            free_clear_addGuard x h.1, h.2]
          rfl
      | succ n =>
          rw [modifyAt, List.map_cons, decoratorFreeElements, h.1, ih n h.2]
          rfl

mutual
/-- Traversed expressions are decorator-free. -/
theorem free_traverseExpr (e : Expr) : decoratorFreeExpr (traverseExpr e) = true := by
  cases e with
  | identifierRef n => rfl
  | thisExpr => rfl
  | superExpr => rfl
  | numberLit n => rfl
  | stringLit s => rfl
  | boolLit b => rfl
  | call c args =>
      rw [traverseExpr, decoratorFreeExpr, free_traverseExpr c, free_traverseExprs args]
      rfl
  | memberAccess o p => rw [traverseExpr, decoratorFreeExpr]; exact free_traverseExpr o
  | arrayLit es => rw [traverseExpr, decoratorFreeExpr]; exact free_traverseExprs es
  | arrayAssign ts r => rw [traverseExpr, decoratorFreeExpr]; exact free_traverseExpr r
  | classExpr c => rw [traverseExpr, decoratorFreeExpr]; exact free_traverseClassNode c
  | functionExpr b => rw [traverseExpr, decoratorFreeExpr]; exact free_traverseStmts b
  | otherExpr s => rfl

/-- Traversed expression lists are decorator-free. -/
theorem free_traverseExprs (l : List Expr) : decoratorFreeExprs (traverseExprs l) = true := by
  cases l with
  | nil => rfl
  | cons e t =>
      rw [traverseExprs, decoratorFreeExprs, free_traverseExpr e, free_traverseExprs t]
      rfl

/-- Traversed optional expressions are decorator-free. -/
theorem free_traverseOptExpr (o : Option Expr) :
    decoratorFreeOptExpr (traverseOptExpr o) = true := by
  cases o with
  | none => rfl
  | some e => rw [traverseOptExpr, decoratorFreeOptExpr]; exact free_traverseExpr e

/-- Traversed statements are decorator-free. -/
theorem free_traverseStmt (s : Stmt) : decoratorFreeStmt (traverseStmt s) = true := by
  cases s with
  | classDecl c => rw [traverseStmt, decoratorFreeStmt]; exact free_traverseClassNode c
  | exportNamedClass c => rw [traverseStmt, decoratorFreeStmt]; exact free_traverseClassNode c
  | exportDefaultClass c => rw [traverseStmt, decoratorFreeStmt]; exact free_traverseClassNode c
  | functionDecl n b => rw [traverseStmt, decoratorFreeStmt]; exact free_traverseStmts b
  | exprStmt e => rw [traverseStmt, decoratorFreeStmt]; exact free_traverseExpr e
  | ifStmt t s =>
      rw [traverseStmt, decoratorFreeStmt, free_traverseExpr t, free_traverseStmt s]
      rfl
  | emptyStmt => rfl
  | otherStmt s => rfl

/-- Traversed statement lists are decorator-free. -/
theorem free_traverseStmts (l : List Stmt) : decoratorFreeStmts (traverseStmts l) = true := by
  cases l with
  | nil => rfl
  | cons s t =>
      rw [traverseStmts, decoratorFreeStmts, free_traverseStmt s, free_traverseStmts t]
      rfl

/-- Traversed optional statement lists are decorator-free. -/
theorem free_traverseOptStmts (o : Option (List Stmt)) :
    decoratorFreeOptStmts (traverseOptStmts o) = true := by
  cases o with
  | none => rfl
  | some l => rw [traverseOptStmts, decoratorFreeOptStmts]; exact free_traverseStmts l

/-- A traversed element is decorator-free once its decorator list is
cleared. -/
theorem free_clear_traverseElement (e : ClassElement) :
    decoratorFreeElement (clearElementDecorators (traverseElement e)) = true := by
  cases e with
  | methodDefinition decs k st key b =>
      rw [traverseElement, clearElementDecorators, decoratorFreeElement,
        free_traverseOptStmts b]
      rfl
  | propertyDefinition decs st key v =>
      rw [traverseElement, clearElementDecorators, decoratorFreeElement,
        free_traverseOptExpr v]
      rfl
  | accessorProperty decs st key v =>
      rw [traverseElement, clearElementDecorators, decoratorFreeElement,
        free_traverseOptExpr v]
      rfl
  | staticBlock b =>
      show decoratorFreeStmts (traverseStmts b) = true
      exact free_traverseStmts b
  | otherElement => rfl

/-- Traversed element lists are decorator-free once cleared. -/
theorem free_clear_traverseElements (l : List ClassElement) :
    decoratorFreeElements ((traverseElements l).map clearElementDecorators) = true := by
  cases l with
  | nil => rfl
  | cons e t =>
      rw [traverseElements, List.map_cons, decoratorFreeElements,
        free_clear_traverseElement e, free_clear_traverseElements t]
      rfl

/-- A traversed element without decorators is decorator-free as is. -/
theorem free_traverseElement_of_empty (e : ClassElement)
    (h : elementHasDecorators e = false) :
    decoratorFreeElement (traverseElement e) = true := by
  cases e with
  | methodDefinition decs k st key b =>
      rw [elementHasDecorators, Bool.not_eq_false'] at h
      rw [traverseElement, decoratorFreeElement, h, free_traverseOptStmts b]
      rfl
  | propertyDefinition decs st key v =>
      rw [elementHasDecorators, Bool.not_eq_false'] at h
      rw [traverseElement, decoratorFreeElement, h, free_traverseOptExpr v]
      rfl
  | accessorProperty decs st key v =>
      rw [elementHasDecorators, Bool.not_eq_false'] at h
      rw [traverseElement, decoratorFreeElement, h, free_traverseOptExpr v]
      rfl
  | staticBlock b =>
      rw [traverseElement, decoratorFreeElement]
      exact free_traverseStmts b
  | otherElement => rfl

/-- A traversed element list none of whose members has decorators is
decorator-free as is. -/
theorem free_traverseElements_of_empty (l : List ClassElement)
    (h : l.any elementHasDecorators = false) :
    decoratorFreeElements (traverseElements l) = true := by
  cases l with
  | nil => rfl
  | cons e t =>
      rw [List.any_cons, Bool.or_eq_false_iff] at h
      rw [traverseElements, decoratorFreeElements,
        free_traverseElement_of_empty e h.1, free_traverseElements_of_empty t h.2]
      rfl

/-- A traversed class node is decorator-free: either the rewrite fires and
clears every decorator list while injecting only decorator-free nodes, or
the class had no decorators to begin with. -/
theorem free_traverseClassNode (c : ClassNode) :
    decoratorFreeClassNode (traverseClassNode c) = true := by
  cases c with
  | mk i sc decs body =>
      rw [traverseClassNode]
      by_cases h : has_decorators (ClassNode.mk i (traverseOptExpr sc) decs (traverseElements body)) = true
      · rw [transform_class_eq _ h]
        simp only [ClassNode.ident, ClassNode.superClass, ClassNode.body]
        rw [decoratorFreeClassNode]
        have hsc : decoratorFreeOptExpr (traverseOptExpr sc) = true := free_traverseOptExpr sc
        have hfree0 : decoratorFreeElements
            ((traverseElements body
              ++ [create_decorator_static_block
                  (collect_decorator_metadata (traverseElements body))
                  (collect_class_decorators
                    (ClassNode.mk i (traverseOptExpr sc) decs (traverseElements body)))]).map
              clearElementDecorators) = true := by
          rw [List.map_append, decoratorFreeElements_append,
            free_clear_traverseElements body]
          simp [clear_staticBlock, decoratorFreeElements, free_staticBlock]
        by_cases hn : needsInstanceInitOf
            (collect_decorator_metadata (traverseElements body)) = true
        · rw [hn]
          simp only [if_true]
          rw [ensure_constructor_with_init]
          cases hidx : findCtorIdx (traverseElements body
              ++ [create_decorator_static_block
                  (collect_decorator_metadata (traverseElements body))
                  (collect_class_decorators
                    (ClassNode.mk i (traverseOptExpr sc) decs (traverseElements body)))]) with
          | none =>
              simp only [insertAt, List.take_zero, List.drop_zero, List.nil_append,
                List.map_cons, decoratorFreeElements]
              rw [clear_ctorNew, free_ctorNew, hfree0]
              simp [hsc]
          | some idx =>
              rw [free_clear_modifyAt _ idx hfree0]
              simp [hsc]
        · rw [Bool.not_eq_true] at hn
          rw [hn]
          simp only [Bool.false_eq_true, if_false]
          rw [hfree0]
          simp [hsc]
      · rw [Bool.not_eq_true] at h
        rw [transform_class_id _ h]
        rw [has_decorators, Bool.or_eq_false_iff] at h
        simp only [ClassNode.decorators, ClassNode.body] at h
        rw [decoratorFreeClassNode]
        rw [Bool.not_eq_false'] at h
        rw [h.1, free_traverseOptExpr sc,
          free_traverseElements_of_empty body (by rw [← any_elementHas_traverse body]; exact h.2)]
        rfl
end

/-! ## C4 (amended) -/

/-- C4 amended: when some top-level class statement carries decorators —
the detector's condition — the traversal runs and the emitted code is the
printed form of a program whose AST contains no decorator anywhere
(classes nested in function bodies and expressions included); but when
decorators occur only on nested classes, the detector misses them and the
pass returns the program unchanged, decorators intact (see the
counterexample). -/
theorem c4_amended (p : List Stmt) (h : check_for_decorators p = true) :
    (transform p).code = generate_helper_functions ++ "\n" ++ printProgram (traverseStmts p)
  ∧ decoratorFreeStmts (traverseStmts p) = true :=
  ⟨transform_code_of_check p h, free_traverseStmts p⟩

/-- Witness input for the amended C4:
`class A \x7b @d m() \x7b\x7d \x7d` at top level. -/
def c4WitnessInput : List Stmt :=
  [Stmt.classDecl (ClassNode.mk (some ("A")) none []
    [ClassElement.methodDefinition [Expr.identifierRef ("d")] .plain false
      (.staticIdentifier ("m")) (some [])])]

/-- Witness for the amended C4 at a concrete decorated program. -/
theorem c4_amended_witness :
    check_for_decorators c4WitnessInput = true
  ∧ ((transform c4WitnessInput).code
      = generate_helper_functions ++ "\n" ++ printProgram (traverseStmts c4WitnessInput)
    ∧ decoratorFreeStmts (traverseStmts c4WitnessInput) = true) :=
  ⟨rfl, c4_amended c4WitnessInput rfl⟩

end DecoratorPass
